import Mathlib

/-!
Verification of the schema-resolution and documentation-verification core of
`openapi-scribe` against its specification.

The Python sources are shallowly embedded:

* JSON documents (`dict` / `list` / scalars) become the inductive `JValue`;
  Python dicts are association lists in insertion order (Python 3.7+ dicts
  preserve insertion order, and all code here only builds dicts with unique
  keys).
* The recursion-depth guards of `SchemaResolver.resolve` and
  `SchemaResolver.process_schema` (`if depth > 10: return ...`) are embedded
  by a fuel argument `fuel = 11 - depth`; the wrapper definitions
  `SchemaResolver.resolve` / `SchemaResolver.process_schema` take the original
  `depth` argument.  This keeps every definition structurally recursive, hence
  kernel-computable.
* The resolver's mutable `self._cache` dict becomes an explicit
  association-list state threaded through and returned by each operation.
* `SchemaCollector._collect_from_node` is depth-unbounded in Python; it is
  embedded with explicit fuel returning `Option`: `none` models fuel
  exhaustion, so a `some` result certifies that the Python recursion
  terminates within that depth.
-/

inductive JValue where
  | null : JValue
  | bool (b : Bool) : JValue
  | num (n : Int) : JValue
  | str (s : String) : JValue
  | arr (items : List JValue) : JValue
  | obj (fields : List (String × JValue)) : JValue

abbrev JObj := List (String × JValue)

abbrev Cache := List (String × JValue)

/-- First-match lookup in an association list (Python `d[k]` / `k in d` on a
dict with unique keys). -/
def dictLookup (fields : JObj) (key : String) : Option JValue :=
  match fields with
  | [] => none
  | (k, v) :: rest => if k == key then some v else dictLookup rest key

/-- Python `d[k] = v`: replace in place when the key exists, else append. -/
def dictInsert (fields : JObj) (key : String) (v : JValue) : JObj :=
  match fields with
  | [] => [(key, v)]
  | (k, w) :: rest =>
    if k == key then (k, v) :: rest else (k, w) :: dictInsert rest key v

/-- Python `d.get(k, default)` on a `JValue` expected to be a dict.  A
non-dict receiver would raise `AttributeError` in Python; that crash region is
modelled as the default. -/
def pyGet (v : JValue) (key : String) (dflt : JValue) : JValue :=
  match v with
  | .obj fields => (dictLookup fields key).getD dflt
  | _ => dflt

/-- Python `d.get(k)` (default `None` modelled as `Option.none`). -/
def pyGetOpt (v : JValue) (key : String) : Option JValue :=
  match v with
  | .obj fields => dictLookup fields key
  | _ => none

/-- Python truthiness of a JSON value (`if node:`). -/
def truthy : JValue → Bool
  | .null => false
  | .bool b => b
  | .num n => !(n == 0)
  | .str s => !(s == "")
  | .arr items => !items.isEmpty
  | .obj fields => !fields.isEmpty

/-- `isinstance(v, (dict, list))`. -/
def isContainer : JValue → Bool
  | .arr _ => true
  | .obj _ => true
  | _ => false

/-- Python `{**a, **b}`: the keys of `a` in order (values overridden by `b`
on collision), then the keys of `b` not in `a`, in order. -/
def pyMerge (a b : JObj) : JObj :=
  b.foldl (fun acc kv => dictInsert acc kv.1 kv.2) a

mutual
/-- Python `==` between JSON values: dict comparison ignores key order,
`True == 1` and `False == 0`. -/
def pyEq : JValue → JValue → Bool
  | .null, .null => true
  | .bool a, .bool b => a == b
  | .bool a, .num m => (if a then (1 : Int) else 0) == m
  | .num n, .bool b => n == (if b then (1 : Int) else 0)
  | .num n, .num m => n == m
  | .str a, .str b => a == b
  | .arr xs, .arr ys => pyEqList xs ys
  | .obj a, .obj b =>
    pyEqFields a b && b.all (fun kv => (dictLookup a kv.1).isSome)
  | _, _ => false

def pyEqList : List JValue → List JValue → Bool
  | [], [] => true
  | x :: xs, y :: ys => pyEq x y && pyEqList xs ys
  | _, _ => false

def pyEqFields : JObj → JObj → Bool
  | [], _ => true
  | (k, v) :: rest, b =>
    (match dictLookup b k with
     | some w => pyEq v w
     | none => false) && pyEqFields rest b
end

/-- Python `x in l` for a list of JSON values (membership via `==`). -/
def pyMem (x : JValue) (l : List JValue) : Bool :=
  l.any (fun y => pyEq x y)

/-! ### Character and string helpers (Python `str` methods) -/

/-- The whitespace characters of Python's `str.isspace` / `re` `\s` for text
patterns. -/
def wsChars : List Char :=
  [' ', '\t', '\n', '\x0b', '\x0c', '\r', '\x1c', '\x1d', '\x1e', '\x1f',
   '\x85', '\xa0', '\u1680', '\u2000', '\u2001', '\u2002', '\u2003',
   '\u2004', '\u2005', '\u2006', '\u2007', '\u2008', '\u2009', '\u200a',
   '\u2028', '\u2029', '\u202f', '\u205f', '\u3000']

def isWsChar (c : Char) : Bool := wsChars.contains c

def isDigitChar (c : Char) : Bool := '0' ≤ c && c ≤ '9'

/-- Python `str.lower` restricted to the alphabets this program handles
(ASCII and Cyrillic, the two scripts occurring in the verifier's keyword
sets). -/
def pyLowerChar (c : Char) : Char :=
  if 'A' ≤ c && c ≤ 'Z' then Char.ofNat (c.toNat + 32)
  else if 'А' ≤ c && c ≤ 'Я' then Char.ofNat (c.toNat + 32)
  else if c == 'Ё' then 'ё'
  else c

/-- Python `str.upper` on the same alphabets. -/
def pyUpperChar (c : Char) : Char :=
  if 'a' ≤ c && c ≤ 'z' then Char.ofNat (c.toNat - 32)
  else if 'а' ≤ c && c ≤ 'я' then Char.ofNat (c.toNat - 32)
  else if c == 'ё' then 'Ё'
  else c

def lowerCL (l : List Char) : List Char := l.map pyLowerChar

def strLower (s : String) : String := ⟨lowerCL s.data⟩

def strUpper (s : String) : String := ⟨s.data.map pyUpperChar⟩

/-- Python `s.rstrip('/')`: drop every trailing `'/'`. -/
def rstripSlash (s : String) : String :=
  ⟨(s.data.reverse.dropWhile (fun c => c == '/')).reverse⟩

/-- Python `ref.split('/')[-1]`: the characters after the last `'/'` (the
whole string when no `'/'` occurs). -/
def lastComp (s : String) : String :=
  ⟨(s.data.reverse.takeWhile (fun c => !(c == '/'))).reverse⟩

/-- Python `s.startswith(p)`. -/
def strStartsWith (s p : String) : Bool :=
  List.isPrefixOf p.data s.data

/-- Python `needle in hay` on strings (substring containment). -/
def strIn (needle : List Char) : List Char → Bool
  | [] => needle.isEmpty
  | c :: rest => List.isPrefixOf needle (c :: rest) || strIn needle rest

/-- Python `s.strip()` (strip whitespace from both ends). -/
def stripWs (l : List Char) : List Char :=
  ((l.dropWhile isWsChar).reverse.dropWhile isWsChar).reverse

/-! ### `json.dumps` (ensure_ascii=False, default separators) -/

def hexDigit (n : Nat) : Char :=
  if n < 10 then Char.ofNat ('0'.toNat + n) else Char.ofNat ('a'.toNat + (n - 10))

/-- The JSON escape of one character inside a string literal. -/
def jsonEscapeChar (c : Char) : List Char :=
  if c == '"' then ['\\', '"']
  else if c == '\\' then ['\\', '\\']
  else if c == '\n' then ['\\', 'n']
  else if c == '\t' then ['\\', 't']
  else if c == '\r' then ['\\', 'r']
  else if c == '\x08' then ['\\', 'b']
  else if c == '\x0c' then ['\\', 'f']
  else if c.toNat < 32 then
    ['\\', 'u', '0', '0', hexDigit (c.toNat / 16), hexDigit (c.toNat % 16)]
  else [c]

def jsonQuote (s : String) : String :=
  ⟨'"' :: (s.data.foldr (fun c acc => jsonEscapeChar c ++ acc) ['"'])⟩

mutual
/-- `json.dumps(v, ensure_ascii=False)` (insertion-order keys). -/
def jsonDumps : JValue → String
  | .null => "null"
  | .bool b => if b then "true" else "false"
  | .num n => toString n
  | .str s => jsonQuote s
  | .arr items => "[" ++ jsonDumpsList items ++ "]"
  | .obj fields => "\x7b" ++ jsonDumpsFields fields ++ "\x7d"

def jsonDumpsList : List JValue → String
  | [] => ""
  | [x] => jsonDumps x
  | x :: y :: rest => jsonDumps x ++ ", " ++ jsonDumpsList (y :: rest)

def jsonDumpsFields : JObj → String
  | [] => ""
  | [(k, v)] => jsonQuote k ++ ": " ++ jsonDumps v
  | (k, v) :: kv :: rest =>
    jsonQuote k ++ ": " ++ jsonDumps v ++ ", " ++ jsonDumpsFields (kv :: rest)
end

/-- Python `<` on strings: lexicographic comparison of code points. -/
def charListLt : List Char → List Char → Bool
  | [], [] => false
  | [], _ :: _ => true
  | _ :: _, [] => false
  | a :: as, b :: bs => if a == b then charListLt as bs else decide (a.val < b.val)

def keyLt (a b : String) : Bool := charListLt a.data b.data

def insertSorted (kv : String × JValue) : JObj → JObj
  | [] => [kv]
  | hd :: tl => if keyLt kv.1 hd.1 then kv :: hd :: tl else hd :: insertSorted kv tl

def sortByKey (fields : JObj) : JObj :=
  fields.foldr insertSorted []

mutual
/-- Recursively sort every object's keys (the effect of `sort_keys=True`
before dumping). -/
def sortKeysDeep : JValue → JValue
  | .obj fields => .obj (sortByKey (sortKeysDeepFields fields))
  | .arr items => .arr (sortKeysDeepList items)
  | v => v

def sortKeysDeepList : List JValue → List JValue
  | [] => []
  | x :: xs => sortKeysDeep x :: sortKeysDeepList xs

def sortKeysDeepFields : JObj → JObj
  | [] => []
  | (k, v) :: rest => (k, sortKeysDeep v) :: sortKeysDeepFields rest
end

/-- `json.dumps(v, sort_keys=True, ensure_ascii=False)`. -/
def jsonDumpsSorted (v : JValue) : String := jsonDumps (sortKeysDeep v)

/-! ### Domain models (`src/domain/models.py`) -/

/-- `OpenAPISpec` value object: raw document plus derived views. -/
structure OpenAPISpec where
  raw : JValue
  paths : JValue
  schemas : JValue
  info : JValue

/-- `OpenAPISpec.from_dict`. -/
def OpenAPISpec.from_dict (d : JValue) : OpenAPISpec :=
  { raw := d
    paths := pyGet d "paths" (.obj [])
    schemas := pyGet (pyGet d "components" (.obj [])) "schemas" (.obj [])
    info := pyGet d "info" (.obj []) }

/-- `Endpoint` value object.  `tags` is kept as a raw JSON value (the
operation's `tags` entry, or the default sentinel list). -/
structure Endpoint where
  path : String
  method : String
  operation : JValue
  tags : JValue

/-- The `Endpoint` constructor together with `__post_init__`, which
upper-cases the method. -/
def mkEndpoint (path method : String) (operation tags : JValue) : Endpoint :=
  { path := path, method := strUpper method, operation := operation, tags := tags }

/-- `EndpointFilter` value object (`endpoints` is a set of
`(method, path)` pairs; modelled as a list, membership is all that is used). -/
structure EndpointFilter where
  endpoints : List (String × String)

/-- `EndpointFilter.matches`. -/
def EndpointFilter.matches (f : EndpointFilter) (method path : String) : Bool :=
  let normalizedMethod := strUpper method
  let normalizedPath := rstripSlash path
  if f.endpoints.contains (normalizedMethod, normalizedPath) then true
  else if f.endpoints.contains (normalizedMethod, normalizedPath ++ "/") then true
  else false

/-- `EndpointFilter.from_set`: methods normalized to upper case. -/
def EndpointFilter.from_set (endpoints : List (String × String)) : EndpointFilter :=
  { endpoints := endpoints.map (fun mp => (strUpper mp.1, mp.2)) }

/-- `EndpointFilter.empty`. -/
def EndpointFilter.empty : EndpointFilter := { endpoints := [] }

/-! ### `SchemaResolver.resolve` (`src/domain/services.py`, lines 111-165)

`resolveF spec fuel cache ref` is `resolve(ref, depth)` with
`fuel = 11 - depth`; the `depth > 10` guard is the `fuel = 0` case.  The
returned pair is (cache after the call, result). -/

/-- The generic JSON-pointer walk (`for part in parts: ...` with early
`break`). -/
def pointerWalk (current : JValue) : List String → JValue
  | [] => current
  | part :: rest =>
    match current with
    | .obj fields =>
      match dictLookup fields part with
      | some v => pointerWalk v rest
      | none => current
    | _ => current

def resolveF (spec : OpenAPISpec) : Nat → Cache → String → Cache × JValue
  | 0, cache, _ => (cache, .obj [])
  | fuel + 1, cache, ref =>
    match dictLookup cache ref with
    | some v => (cache, v)
    | none =>
      if strStartsWith ref "#/components/parameters/" then
        let paramName := lastComp ref
        let resolved :=
          pyGet (pyGet (pyGet spec.raw "components" (.obj [])) "parameters" (.obj []))
            paramName (.obj [])
        (dictInsert cache ref resolved, resolved)
      else if strStartsWith ref "#/components/schemas/" then
        let schemaName := lastComp ref
        let schema := pyGet spec.schemas schemaName (.obj [])
        match schema with
        | .obj sfields =>
          match dictLookup sfields "$ref" with
          | some (.str innerRef) =>
            let rr := resolveF spec fuel cache innerRef
            (dictInsert rr.1 ref rr.2, rr.2)
          | some _ =>
            -- a non-string `$ref` value would raise `AttributeError` inside
            -- the recursive `resolve` call in Python; crash region
            (dictInsert cache ref schema, schema)
          | none => (dictInsert cache ref schema, schema)
        | _ => (dictInsert cache ref schema, schema)
      else if strStartsWith ref "#" then
        let parts := (ref.splitOn "/").drop 1
        let current := pointerWalk spec.raw parts
        if !(pyEq current spec.raw) then
          let v := match current with
            | .obj fields => JValue.obj fields
            | _ => JValue.obj []
          (dictInsert cache ref v, v)
        else (dictInsert cache ref (.obj []), .obj [])
      else (dictInsert cache ref (.obj []), .obj [])

/-- `SchemaResolver.resolve(ref, depth)` (the resolver's spec and cache made
explicit). -/
def SchemaResolver.resolve (spec : OpenAPISpec) (cache : Cache) (ref : String)
    (depth : Nat) : Cache × JValue :=
  resolveF spec (11 - depth) cache ref

/-! ### `SchemaResolver.process_schema` (lines 167-202)

`processF spec fuel cache node` is `process_schema(node, depth)` with
`fuel = 11 - depth`; the `depth > 10` guard is the `fuel = 0` case. -/

/-- One pass of the `for key, value in node.items()` loop: each dict/list
value processed by `g` (cache threaded through), scalars kept. -/
def procFieldsWith (g : Cache → JValue → Cache × JValue) :
    Cache → JObj → Cache × JObj
  | cache, [] => (cache, [])
  | cache, (k, v) :: rest =>
    if isContainer v then
      let p := g cache v
      let q := procFieldsWith g p.1 rest
      (q.1, (k, p.2) :: q.2)
    else
      let q := procFieldsWith g cache rest
      (q.1, (k, v) :: q.2)

/-- The list-comprehension case for array nodes. -/
def procItemsWith (g : Cache → JValue → Cache × JValue) :
    Cache → List JValue → Cache × List JValue
  | cache, [] => (cache, [])
  | cache, v :: rest =>
    if isContainer v then
      let p := g cache v
      let q := procItemsWith g p.1 rest
      (q.1, p.2 :: q.2)
    else
      let q := procItemsWith g cache rest
      (q.1, v :: q.2)

def processF (spec : OpenAPISpec) : Nat → Cache → JValue → Cache × JValue
  | 0, cache, node => (cache, node)
  | fuel + 1, cache, node =>
    match node with
    | .obj fields =>
      let generic := fun (c : Cache) =>
        let q := procFieldsWith (processF spec fuel) c fields
        (q.1, JValue.obj q.2)
      match dictLookup fields "$ref" with
      | some (.str r) =>
        -- `resolved = self.resolve(node['$ref'])` -- depth defaults to 0
        let rr := resolveF spec 11 cache r
        if truthy rr.2 then
          match rr.2 with
          | .obj resolvedFields =>
            let newNode :=
              dictInsert
                (pyMerge resolvedFields (fields.filter (fun kv => !(kv.1 == "$ref"))))
                "x-original-ref" (.str r)
            processF spec fuel rr.1 (.obj newNode)
          | _ =>
            -- a truthy non-dict resolution would raise `TypeError` at the
            -- `{**resolved, ...}` merge in Python; crash region
            generic rr.1
        else generic rr.1
      | some _ =>
        -- a non-string `$ref` value would raise inside `resolve`; crash region
        generic cache
      | none => generic cache
    | .arr items =>
      let q := procItemsWith (processF spec fuel) cache items
      (q.1, JValue.arr q.2)
    | _ => (cache, node)

/-- `SchemaResolver.process_schema(node, depth)`. -/
def SchemaResolver.process_schema (spec : OpenAPISpec) (cache : Cache)
    (node : JValue) (depth : Nat) : Cache × JValue :=
  processF spec (11 - depth) cache node

/-! ### `SchemaCollector` (lines 209-305)

`collectNode spec fuel st node` is `_collect_from_node(node, collected)` with
the resolver cache and the `collected` set made explicit state
(`st = (cache, collected)`; the set is a list in insertion order, queried by
membership only).  Python's recursion is depth-unbounded; `none` models
running out of the explicit fuel, so a `some` result certifies termination of
the Python call within that recursion depth. -/

abbrev CollectSt := Cache × List String

/-- Run `g` over every element of a list, threading the state
(`for item in ...: self._collect_from_node(item, collected)`). -/
def collSeqWith (g : CollectSt → JValue → Option CollectSt) :
    CollectSt → List JValue → Option CollectSt
  | st, [] => some st
  | st, x :: xs =>
    match g st x with
    | none => none
    | some st' => collSeqWith g st' xs

/-- The keys skipped by the collector's generic traversal loop. -/
def collectorSkipKeys : List String :=
  ["$ref", "allOf", "anyOf", "oneOf", "properties", "items", "additionalProperties"]

def collectNode (spec : OpenAPISpec) : Nat → CollectSt → JValue → Option CollectSt
  | 0, _, _ => none
  | fuel + 1, st, node =>
    match node with
    | .obj fields =>
      -- `if '$ref' in node:`
      let afterRef : Option CollectSt :=
        match dictLookup fields "$ref" with
        | some (.str ref) =>
          if strStartsWith ref "#/components/schemas/" then
            let schemaName := lastComp ref
            if st.2.contains schemaName then some st
            else
              let collected' := st.2 ++ [schemaName]
              -- `schema_node = self.resolver.resolve(ref)` -- depth 0
              let rr := resolveF spec 11 st.1 ref
              if truthy rr.2 then collectNode spec fuel (rr.1, collected') rr.2
              else some (rr.1, collected')
          else some st
        | some _ =>
          -- a non-string `$ref` raises inside `resolve`; the `except` clause
          -- swallows only resolution errors, yet `startswith` fails first --
          -- crash region, modelled as no-op
          some st
        | none => some st
      match afterRef with
      | none => none
      | some st1 =>
        -- `for key in ['allOf', 'anyOf', 'oneOf']:` -- iterating a non-list
        -- value visits strings (no-ops) or raises; only lists matter
        let doComb := fun (st : CollectSt) (key : String) =>
          match dictLookup fields key with
          | some (.arr xs) => collSeqWith (collectNode spec fuel) st xs
          | _ => some st
        match doComb st1 "allOf" with
        | none => none
        | some st2 =>
        match doComb st2 "anyOf" with
        | none => none
        | some st3 =>
        match doComb st3 "oneOf" with
        | none => none
        | some st4 =>
        -- `if 'properties' in node: for prop in node['properties'].values()`
        let afterProps :=
          match dictLookup fields "properties" with
          | some (.obj props) =>
            collSeqWith (collectNode spec fuel) st4
              (props.map (fun (kv : String × JValue) => kv.2))
          | some _ => some st4
          | none => some st4
        match afterProps with
        | none => none
        | some st5 =>
        -- `if 'items' in node:`
        let afterItems :=
          match dictLookup fields "items" with
          | some v => collectNode spec fuel st5 v
          | none => some st5
        match afterItems with
        | none => none
        | some st6 =>
        -- `if 'additionalProperties' in node and isinstance(..., dict):`
        let afterAddProps :=
          match dictLookup fields "additionalProperties" with
          | some (.obj aps) => collectNode spec fuel st6 (.obj aps)
          | _ => some st6
        match afterAddProps with
        | none => none
        | some st7 =>
        -- the generic `for key, value in node.items()` loop
        collSeqWith (collectNode spec fuel) st7
          ((fields.filter
              (fun (kv : String × JValue) => !(collectorSkipKeys.contains kv.1))).map
            (fun (kv : String × JValue) => kv.2))
    | .arr xs => collSeqWith (collectNode spec fuel) st xs
    | _ => some st

/-- `SchemaCollector.collect_from_endpoint` (cache and fuel explicit; returns
the final cache and the collected schema names in insertion order). -/
def SchemaCollector.collect_from_endpoint (spec : OpenAPISpec) (fuel : Nat)
    (cache : Cache) (e : Endpoint) : Option CollectSt :=
  let st0 : CollectSt := (cache, [])
  -- `for param in endpoint.operation.get('parameters', []):`
  let afterParams :=
    match pyGet e.operation "parameters" (.arr []) with
    | .arr xs => collSeqWith (collectNode spec fuel) st0 xs
    | _ => some st0
  match afterParams with
  | none => none
  | some st1 =>
  -- `if 'requestBody' in endpoint.operation:`
  let afterBody :=
    match pyGetOpt e.operation "requestBody" with
    | some v => collectNode spec fuel st1 v
    | none => some st1
  match afterBody with
  | none => none
  | some st2 =>
  -- `for response in endpoint.operation.get('responses', {}).values():`
  match pyGet e.operation "responses" (.obj []) with
  | .obj rs => collSeqWith (collectNode spec fuel) st2 (rs.map (fun kv => kv.2))
  | _ => some st2

/-! ### `EndpointFinder.find` (lines 13-64) -/

/-- The failure conditions of `EndpointFinder.find` (`ValueError` in Python,
carrying the data interpolated into the message). -/
inductive FindErr where
  | pathNotFound (path : String) : FindErr
  | methodNotFound (method : String) (available : List String) : FindErr

def standardMethods : List String :=
  ["GET", "POST", "PUT", "DELETE", "PATCH", "HEAD", "OPTIONS"]

def EndpointFinder.find (spec : OpenAPISpec) (path method : String) :
    Except FindErr Endpoint :=
  -- `endpoint_path = path.rstrip('/')`
  let endpointPath := rstripSlash path
  let exactMatch0 := pyGetOpt spec.paths endpointPath
  -- `if not exact_match:` -- `None` and falsy values (e.g. `{}`) both fail
  let pm : String × Option JValue :=
    if (exactMatch0.map truthy).getD false then (endpointPath, exactMatch0)
    else
      let altPath := endpointPath ++ "/"
      let m1 := pyGetOpt spec.paths altPath
      if (m1.map truthy).getD false then (altPath, m1)
      else (endpointPath, none)
  match pm.2 with
  | none => .error (.pathNotFound path)
  | some exactMatch =>
    let methodLower := strLower method
    let endpointInfo := pyGet exactMatch methodLower .null
    if truthy endpointInfo then
      let tags := pyGet endpointInfo "tags" (.arr [.str "Без тега"])
      .ok (mkEndpoint pm.1 method endpointInfo tags)
    else
      let available :=
        match exactMatch with
        | .obj fields =>
          (fields.map (fun kv => strUpper kv.1)).filter
            (fun m => standardMethods.contains m)
        | _ => []
      .error (.methodNotFound (strUpper method) available)

/-! ### `DocumentationVerifier` (`src/rendering/verifier.py`)

The verifier searches a rendered Markdown string with `re` patterns.  Each
pattern used by the source is deterministic (every greedy sub-pattern is
bounded by a character its successor cannot match), so each is embedded as a
direct scanning function over `List Char` together with a
leftmost-match search.  `match.start()` becomes an index `i`, and Python
slices `markdown[i:i+n]` become `(md.drop i).take n`.

`json.loads` (used only to parse example code blocks out of the rendered
text) is standard-library code outside this repository; the verifier is
parameterized by it (`jsonLoads`, `none` modelling `JSONDecodeError`).  No
verified property depends on its behaviour. -/

/-- Match a literal at the head; return the remaining characters. -/
def takeLit : List Char → List Char → Option (List Char)
  | [], s => some s
  | _ :: _, [] => none
  | c :: cs, d :: ds => if c == d then takeLit cs ds else none

/-- `\s+` followed by a literal (the literal pattern tail after mandatory
whitespace, with greedy backtracking): does it match here? -/
def wsThenLit (lit : List Char) : List Char → Bool
  | [] => false
  | c :: rest => isWsChar c && ((takeLit lit rest).isSome || wsThenLit lit rest)

/-- Does `` ###\s*`METHOD`\s+PATH `` match at this position?  (`METHOD` and
`PATH` interpolated literally; `PATH` is `re.escape`d in the source, `METHOD`
is an upper-cased HTTP verb, so both are literal.) -/
def headingAt (method path : List Char) (s : List Char) : Bool :=
  match takeLit "###".data s with
  | none => false
  | some r1 =>
    match takeLit ['`'] (r1.dropWhile isWsChar) with
    | none => false
    | some r2 =>
      match takeLit (method ++ ['`']) r2 with
      | none => false
      | some r3 => wsThenLit path r3

/-- `re.search`: index of the leftmost position where `p` matches. -/
def searchIdx (p : List Char → Bool) : List Char → Option Nat
  | [] => if p [] then some 0 else none
  | c :: rest =>
    if p (c :: rest) then some 0 else (searchIdx p rest).map (fun i => i + 1)

/-- The index of the endpoint's heading
(`` re.search(rf"###\s*`{method}`\s+{re.escape(path)}", markdown) ``). -/
def headingIdx (e : Endpoint) (md : List Char) : Option Nat :=
  searchIdx (headingAt e.method.data e.path.data) md

/-- Match `######\s*\*\*Код\s+(\d+):\*\*` at this position; return the
captured digits and the match length. -/
def matchRespCodeAt (s : List Char) : Option (String × Nat) :=
  match takeLit "######".data s with
  | none => none
  | some r1 =>
    match takeLit "**Код".data (r1.dropWhile isWsChar) with
    | none => none
    | some r2 =>
      let r3 := r2.dropWhile isWsChar
      if r2.length == r3.length then none  -- `\s+` needs at least one char
      else
        let digits := r3.takeWhile isDigitChar
        if digits.isEmpty then none
        else
          match takeLit ":**".data (r3.drop digits.length) with
          | none => none
          | some r4 => some (⟨digits⟩, s.length - r4.length)

/-- `re.finditer` for the response-code pattern: non-overlapping leftmost
matches with their start indices.  Fuel `s.length + 1` suffices: every step
consumes at least one character. -/
def respCodesGo : Nat → Nat → List Char → List (Nat × String)
  | 0, _, _ => []
  | fuel + 1, i, s =>
    match matchRespCodeAt s with
    | some (code, len) => (i, code) :: respCodesGo fuel (i + len) (s.drop len)
    | none =>
      match s with
      | [] => []
      | _ :: rest => respCodesGo fuel (i + 1) rest

def findRespCodes (s : List Char) : List (Nat × String) :=
  respCodesGo (s.length + 1) 0 s

/-- Match `\*\*([^*]+):\*\*` at this position; return the capture and the
match length.  The greedy `[^*]+` takes the maximal star-free run; the run
must then end in `':'` immediately followed by `**`. -/
def matchStarLabelAt (s : List Char) : Option (String × Nat) :=
  match takeLit "**".data s with
  | none => none
  | some r1 =>
    let run := r1.takeWhile (fun c => !(c == '*'))
    if run.length < 2 then none
    else if run.getLast? == some ':' then
      match takeLit "**".data (r1.drop run.length) with
      | none => none
      | some r2 => some (⟨run.dropLast⟩, s.length - r2.length)
    else none

/-- `re.findall(r'\*\*([^*]+):\*\*', s)`. -/
def starLabelsGo : Nat → List Char → List String
  | 0, _ => []
  | fuel + 1, s =>
    match matchStarLabelAt s with
    | some (cap, len) => cap :: starLabelsGo fuel (s.drop len)
    | none =>
      match s with
      | [] => []
      | _ :: rest => starLabelsGo fuel rest

def findStarLabels (s : List Char) : List String :=
  starLabelsGo (s.length + 1) s

/-- Does `######\s*\*\*Код\s+CODE:\*\*` (CODE interpolated literally) match
at this position? -/
def respCodeForAt (code : List Char) (s : List Char) : Bool :=
  match takeLit "######".data s with
  | none => false
  | some r1 =>
    match takeLit "**Код".data (r1.dropWhile isWsChar) with
    | none => false
    | some r2 => wsThenLit (code ++ ":**".data) r2

/-- Match the parameter-example pattern
`#### Примеры параметров\s*\*\*([^*]+)\*\*\s*\*\*Пример\s+\d+:\*\*\s*` followed
by a backtick-quoted `([^`]+)` capture, at this position; return both captures
and the match length. -/
def matchParamExAt (s : List Char) : Option (String × String × Nat) :=
  match takeLit "#### Примеры параметров".data s with
  | none => none
  | some r1 =>
    match takeLit "**".data (r1.dropWhile isWsChar) with
    | none => none
    | some r2 =>
      let run1 := r2.takeWhile (fun c => !(c == '*'))
      if run1.isEmpty then none
      else
        match takeLit "**".data (r2.drop run1.length) with
        | none => none
        | some r3 =>
          match takeLit "**Пример".data (r3.dropWhile isWsChar) with
          | none => none
          | some r4 =>
            let r5 := r4.dropWhile isWsChar
            if r4.length == r5.length then none  -- `\s+`
            else
              let digits := r5.takeWhile isDigitChar
              if digits.isEmpty then none
              else
                match takeLit ":**".data (r5.drop digits.length) with
                | none => none
                | some r6 =>
                  match takeLit ['`'] (r6.dropWhile isWsChar) with
                  | none => none
                  | some r7 =>
                    let run2 := r7.takeWhile (fun c => !(c == '`'))
                    if run2.isEmpty then none
                    else
                      match takeLit ['`'] (r7.drop run2.length) with
                      | none => none
                      | some r8 => some (⟨run1⟩, ⟨run2⟩, s.length - r8.length)

/-- `re.finditer` for the parameter-example pattern. -/
def paramExGo : Nat → List Char → List (String × String)
  | 0, _ => []
  | fuel + 1, s =>
    match matchParamExAt s with
    | some (name, value, len) => (name, value) :: paramExGo fuel (s.drop len)
    | none =>
      match s with
      | [] => []
      | _ :: rest => paramExGo fuel rest

def findParamExPairs (s : List Char) : List (String × String) :=
  paramExGo (s.length + 1) s

/-- Match ```` ```json\s*\n(.*?)\n``` ```` (DOTALL) at this position: after
the literal, the greedy `\s*` must end at a newline (the last newline of the
maximal whitespace run), and the lazy capture runs to the first
`` \n``` ``.  Returns the capture and the match length. -/
def matchJsonBlockAt (s : List Char) : Option (List Char × Nat) :=
  match takeLit "```json".data s with
  | none => none
  | some r1 =>
    let w := r1.takeWhile isWsChar
    -- candidate end positions of `\s*\n`, greedy: newline indices in the
    -- maximal whitespace run, largest first
    let js := ((List.range w.length).filter
      (fun j => w.get? j == some '\n')).reverse
    js.findSome? (fun j =>
      let r2 := r1.drop (j + 1)
      match searchIdx (fun t => (takeLit "\n```".data t).isSome) r2 with
      | none => none
      | some idx =>
        some (r2.take idx, "```json".length + j + 1 + idx + 4))

/-- `re.findall` for json blocks: the list of captures. -/
def jsonBlocksGo : Nat → List Char → List (List Char)
  | 0, _ => []
  | fuel + 1, s =>
    match matchJsonBlockAt s with
    | some (cap, len) => cap :: jsonBlocksGo fuel (s.drop len)
    | none =>
      match s with
      | [] => []
      | _ :: rest => jsonBlocksGo fuel rest

def findJsonBlocks (s : List Char) : List (List Char) :=
  jsonBlocksGo (s.length + 1) s

/-! ### Verifier extractors and checks -/

/-- Generic association-list lookup (Python dict access, any value type). -/
def aLookup {α : Type} : List (String × α) → String → Option α
  | [], _ => none
  | (k, v) :: rest, key => if k == key then some v else aLookup rest key

/-- Generic association-list insert-or-replace (Python `d[k] = v`). -/
def aInsert {α : Type} : List (String × α) → String → α → List (String × α)
  | [], key, v => [(key, v)]
  | (k, w) :: rest, key, v =>
    if k == key then (k, v) :: rest else (k, w) :: aInsert rest key v

/-- `_extract_security_from_markdown` (lines 191-201). -/
def extractSecurityFromMarkdown (md : List Char) (e : Endpoint) : Bool :=
  match headingIdx e md with
  | none => false
  | some i =>
    let sect := (md.drop i).take 2000
    strIn "security".data (lowerCL sect) ||
    strIn "авторизация".data (lowerCL sect) ||
    strIn "аутентификация".data (lowerCL sect)

/-- `_check_deprecated_in_markdown` (lines 203-211). -/
def checkDeprecatedInMarkdown (md : List Char) (e : Endpoint) : Bool :=
  match headingIdx e md with
  | none => false
  | some i =>
    let sect := (md.drop i).take 500
    strIn "устарел".data (lowerCL sect) ||
    strIn "deprecated".data (lowerCL sect) ||
    strIn "⚠️".data sect

/-- `_check_operation_id_in_markdown` (lines 213-215): plain substring search
over the whole document. -/
def checkOperationIdInMarkdown (md : List Char) (operationId : String) : Bool :=
  strIn operationId.data md

/-- `_check_description_in_markdown` (lines 217-225). -/
def checkDescriptionInMarkdown (md : List Char) (description : String) : Bool :=
  let snippet := stripWs (description.data.take 50)
  if snippet.isEmpty then true
  else strIn (lowerCL snippet) (lowerCL md)

/-- `_extract_response_examples` (lines 227-250): per response code, the
examples dict as `(name, value, summary)` triples. -/
def extractResponseExamples (responses : JValue) :
    List (String × List (String × JValue × JValue)) :=
  match responses with
  | .obj rs =>
    rs.foldl (fun acc cr =>
      if !(truthy cr.2) then acc  -- `if not response: continue`
      else
        let codeExamples :=
          match pyGet cr.2 "content" (.obj []) with
          | .obj contents =>
            contents.foldl (fun ce cm =>
              match cm.2 with
              | .obj mfields =>
                match dictLookup mfields "examples" with
                | some (.obj exs) =>
                  exs.foldl (fun ce2 ne =>
                    match ne.2 with
                    | .obj edf =>
                      match dictLookup edf "value" with
                      | some v =>
                        aInsert ce2 ne.1
                          (v, (dictLookup edf "summary").getD (.str ne.1))
                      | none => aInsert ce2 ne.1 (ne.2, .str ne.1)
                    | _ => aInsert ce2 ne.1 (ne.2, .str ne.1)) ce
                | _ => ce  -- non-dict `examples` has no `.items()`; crash region
              | _ => ce) []
          | _ => []
        if codeExamples.isEmpty then acc
        else aInsert acc cr.1 codeExamples) []
  | _ => []

/-- `_extract_examples_from_markdown_responses` (lines 252-274). -/
def extractExamplesFromMarkdownResponses (md : List Char) (e : Endpoint) :
    List (String × List String) :=
  match headingIdx e md with
  | none => []
  | some i =>
    let sect := md.drop i
    (findRespCodes sect).foldl (fun acc mc =>
      let codeSection := (sect.drop mc.1).take 2000
      aInsert acc mc.2 (findStarLabels codeSection)) []

/-- `_extract_example_values_from_markdown` (lines 276-307). -/
def extractExampleValuesFromMarkdown (jsonLoads : String → Option JValue)
    (md : List Char) (e : Endpoint) (code : String) : List JValue :=
  match headingIdx e md with
  | none => []
  | some i =>
    let sect := md.drop i
    match searchIdx (respCodeForAt code.data) sect with
    | none => []
    | some j =>
      let codeSection := (sect.drop j).take 3000
      (findJsonBlocks codeSection).map (fun b =>
        let st := stripWs b
        match jsonLoads ⟨st⟩ with
        | some v => v
        | none => .str ⟨st⟩)

/-- The example payloads of one node (`schema` or parameter level) in
`_extract_parameter_examples`: the `examples` entries first (list form or
dict values), then the singular `example`. -/
def nodeExamples (v : JValue) : List JValue :=
  match v with
  | .obj vf =>
    (match dictLookup vf "examples" with
     | some (.arr xs) => xs
     | some (.obj exs) => exs.map (fun kv => kv.2)
     | _ => []) ++
    (match dictLookup vf "example" with
     | some ex => [ex]
     | none => [])
  | _ => []

/-- `_extract_parameter_examples` (lines 309-339). -/
def extractParameterExamples (params : JValue) : List (String × List JValue) :=
  match params with
  | .arr ps =>
    ps.foldl (fun acc param =>
      match param with
      | .obj pf =>
        -- `param.get('name', '')`; a non-string name is degenerate (it could
        -- never match the string keys extracted from Markdown)
        let pname := match dictLookup pf "name" with
          | some (.str s) => s
          | _ => ""
        let fromSchema := match dictLookup pf "schema" with
          | some sch => if truthy sch then nodeExamples sch else []
          | none => []
        let paramExamples := fromSchema ++ nodeExamples (.obj pf)
        if paramExamples.isEmpty then acc
        else aInsert acc pname paramExamples
      | _ => acc) []  -- non-dict parameter entries raise at `.get`; crash region
  | _ => []

/-- `_extract_examples_from_markdown_parameters` (lines 341-361). -/
def extractExamplesFromMarkdownParameters (md : List Char) (e : Endpoint) :
    List (String × List String) :=
  match headingIdx e md with
  | none => []
  | some i =>
    let sect := (md.drop i).take 3000
    (findParamExPairs sect).foldl (fun acc pv =>
      aInsert acc pv.1 (((aLookup acc pv.1).getD []) ++ [pv.2])) []

/-- `_extract_request_body_examples` (lines 363-377). -/
def extractRequestBodyExamples (requestBody : JValue) : List (String × JValue) :=
  match pyGet requestBody "content" (.obj []) with
  | .obj contents =>
    contents.foldl (fun acc cm =>
      match cm.2 with
      | .obj mf =>
        let acc1 :=
          match dictLookup mf "examples" with
          | some (.obj exs) =>
            exs.foldl (fun a ne =>
              match ne.2 with
              | .obj edf =>
                match dictLookup edf "value" with
                | some v => aInsert a ne.1 v
                | none => aInsert a ne.1 ne.2
              | _ => aInsert a ne.1 ne.2) acc
          | _ => acc
        match dictLookup mf "example" with
        | some ex => aInsert acc1 "default" ex
        | none => acc1
      | _ => acc) []
  | _ => []

/-- `_extract_examples_from_markdown_request_body` (lines 379-395). -/
def extractExamplesFromMarkdownRequestBody (md : List Char) (e : Endpoint) :
    List String :=
  match headingIdx e md with
  | none => []
  | some i => findStarLabels ((md.drop i).take 5000)

/-! ### `verify_endpoint` (lines 16-189) -/

structure Issue where
  type : String
  severity : String
  message : String

/-- The security check (lines 44-62): issues plus the `missing_items`
entry. -/
def securityCheck (md : List Char) (e : Endpoint) : List Issue × JValue :=
  match pyGetOpt e.operation "security" with
  | some sec =>
    if truthy sec then
      let found0 := extractSecurityFromMarkdown md e
      let found :=
        if found0 then true
        else
          -- the second, "more precise" pass over a 3000-char window
          match headingIdx e md with
          | some i =>
            let sect := (md.drop i).take 3000
            strIn "требования безопасности".data (lowerCL sect) ||
            strIn "security".data (lowerCL sect)
          | none => false
      if found then ([], .arr [])
      else
        ([{ type := "missing_security", severity := "high",
            message := "Security информация отсутствует в Markdown: " ++ jsonDumps sec }],
         sec)
    else ([], .arr [])
  | none => ([], .arr [])

/-- The deprecated check (lines 64-72). -/
def deprecatedCheck (md : List Char) (e : Endpoint) : List Issue × Bool :=
  if truthy (pyGet e.operation "deprecated" (.bool false)) then
    if checkDeprecatedInMarkdown md e then ([], false)
    else
      ([{ type := "missing_deprecated", severity := "medium",
          message := "Deprecated статус не отображается в Markdown" }], true)
  else ([], false)

/-- The operationId check (lines 74-82).  A non-string `operationId` raises
`TypeError` at the `in` search in Python; crash region. -/
def operationIdCheck (md : List Char) (op : JValue) : List Issue × Bool :=
  match pyGetOpt op "operationId" with
  | some (.str oid) =>
    if checkOperationIdInMarkdown md oid then ([], false)
    else
      ([{ type := "missing_operation_id", severity := "low",
          message := "OperationId не найден в Markdown: " ++ oid }], true)
  | some _ => ([], false)
  | none => ([], false)

/-- The description check (lines 84-92).  A truthy non-string description
raises at the `[:50]` slice in Python; crash region. -/
def descriptionCheck (md : List Char) (op : JValue) : List Issue × Bool :=
  match pyGetOpt op "description" with
  | some (.str d) =>
    if truthy (.str d) then
      if checkDescriptionInMarkdown md d then ([], false)
      else
        ([{ type := "missing_description", severity := "medium",
            message := "Расширенное описание отсутствует в Markdown" }], true)
    else ([], false)
  | some _ => ([], false)
  | none => ([], false)

/-- The per-example search of the response-example loop (lines 112-134):
by name, by summary, by parsed value, then by key-sorted JSON dump. -/
def respExampleFound (name : String) (value summary : JValue)
    (mdNames : List String) (mdVals : List JValue) : Bool :=
  mdNames.contains name ||
  (match summary with
   | .str s => mdNames.contains s
   | _ => false) ||
  pyMem value mdVals ||
  (match value with
   | .obj _ =>
     let exampleJson := jsonDumpsSorted value
     mdVals.any (fun mv =>
       match mv with
       | .obj _ => jsonDumpsSorted mv == exampleJson
       | .str s => strIn exampleJson.data s.data
       | _ => false)
   | _ => false)

/-- The `(code, name, value)` triples the response-example loop reports
missing (lines 94-146), in source order. -/
def responseMissing (jsonLoads : String → Option JValue) (md : List Char)
    (e : Endpoint) : List (String × String × JValue) :=
  let respEx := extractResponseExamples (pyGet e.operation "responses" (.obj []))
  let mdEx := extractExamplesFromMarkdownResponses md e
  respEx.flatMap (fun ce =>
    let mdNames := (aLookup mdEx ce.1).getD []
    let mdVals := extractExampleValuesFromMarkdown jsonLoads md e ce.1
    (ce.2.filter
        (fun nvs => !(respExampleFound nvs.1 nvs.2.1 nvs.2.2 mdNames mdVals))).map
      (fun nvs => (ce.1, nvs.1, nvs.2.1)))

/-- The `(parameter, example)` pairs the parameter-example loop reports
missing (lines 148-164). -/
def paramMissing (md : List Char) (e : Endpoint) : List (String × JValue) :=
  let pEx := extractParameterExamples (pyGet e.operation "parameters" (.arr []))
  let mdP := extractExamplesFromMarkdownParameters md e
  pEx.flatMap (fun pe =>
    let mdExs := (aLookup mdP pe.1).getD []
    (pe.2.filter (fun ex =>
        !(match ex with
          | .str s => mdExs.contains s
          | _ => false))).map
      (fun ex => (pe.1, ex)))

/-- The `(name, value)` pairs the request-body-example loop reports missing
(lines 166-180). -/
def bodyMissing (md : List Char) (e : Endpoint) : List (String × JValue) :=
  let bEx := extractRequestBodyExamples (pyGet e.operation "requestBody" (.obj []))
  let mdB := extractExamplesFromMarkdownRequestBody md e
  bEx.filter (fun nv => !(mdB.contains nv.1))

/-- The issue recorded for one missing response example (lines 142-146). -/
def respIssueOf (m : String × String × JValue) : Issue :=
  { type := "missing_response_example", severity := "medium",
    message := "Пример ответа " ++ m.1 ++ " '" ++ m.2.1 ++ "' отсутствует в Markdown" }

/-- The issue recorded for one missing parameter example (lines 160-164). -/
def parIssueOf (m : String × JValue) : Issue :=
  { type := "missing_parameter_example", severity := "low",
    message := "Пример параметра '" ++ m.1 ++ "' отсутствует в Markdown" }

/-- The issue recorded for one missing request-body example (lines 176-180). -/
def bodIssueOf (m : String × JValue) : Issue :=
  { type := "missing_request_body_example", severity := "medium",
    message := "Пример тела запроса '" ++ m.1 ++ "' отсутствует в Markdown" }

/-- `_generate_summary` (lines 397-414). -/
def generateSummary (issues : List Issue) : String :=
  if issues.isEmpty then "✅ Информационных потерь не обнаружено"
  else
    let high := (issues.filter (fun i => i.severity == "high")).length
    let med := (issues.filter (fun i => i.severity == "medium")).length
    let low := (issues.filter (fun i => i.severity == "low")).length
    let parts :=
      (if high > 0 then ["🔴 Критичных: " ++ toString high] else []) ++
      (if med > 0 then ["🟡 Средних: " ++ toString med] else []) ++
      (if low > 0 then ["🟢 Низких: " ++ toString low] else [])
    "Найдено проблем: " ++ toString issues.length ++ " (" ++
      String.intercalate ", " parts ++ ")"

/-- The result dict of `verify_endpoint` (the `missing_items` sub-dict
flattened into fields). -/
structure VerifyResult where
  endpoint : String
  has_issues : Bool
  issues_count : Nat
  issues : List Issue
  missingSecurity : JValue
  missingResponseExamples : List (String × String × JValue)
  missingParameterExamples : List (String × JValue)
  missingRequestBodyExamples : List (String × JValue)
  missingDeprecated : Bool
  missingOperationId : Bool
  missingDescription : Bool
  summary : String

/-- `DocumentationVerifier.verify_endpoint`, parameterized by `json.loads`. -/
def DocumentationVerifier.verify_endpoint (jsonLoads : String → Option JValue)
    (e : Endpoint) (markdownContent : String) : VerifyResult :=
  let md := markdownContent.data
  let sec := securityCheck md e
  let dep := deprecatedCheck md e
  let opid := operationIdCheck md e.operation
  let desc := descriptionCheck md e.operation
  let respM := responseMissing jsonLoads md e
  let respIssues := respM.map respIssueOf
  let parM := paramMissing md e
  let parIssues := parM.map parIssueOf
  let bodM := bodyMissing md e
  let bodIssues := bodM.map bodIssueOf
  let issues := sec.1 ++ dep.1 ++ opid.1 ++ desc.1 ++ respIssues ++ parIssues ++ bodIssues
  { endpoint := e.method ++ " " ++ e.path
    has_issues := !issues.isEmpty
    issues_count := issues.length
    issues := issues
    missingSecurity := sec.2
    missingResponseExamples := respM
    missingParameterExamples := parM
    missingRequestBodyExamples := bodM
    missingDeprecated := dep.2
    missingOperationId := opid.2
    missingDescription := desc.2
    summary := generateSummary issues }

/-! ## Helper lemmas -/

theorem takeWhileSplit {p : Char → Bool} (l1 : List Char) (c : Char) (l2 : List Char)
    (h1 : ∀ x ∈ l1, p x = true) (hc : p c = false) :
    (l1 ++ c :: l2).takeWhile p = l1 := by
  induction l1 with
  | nil => simp [List.takeWhile, hc]
  | cons a tl ih =>
    have ha : p a = true := h1 a (List.mem_cons_self a tl)
    simp only [List.cons_append, List.takeWhile_cons, ha, if_true]
    rw [ih (fun x hx => h1 x (List.mem_cons_of_mem a hx))]

theorem mkString_data (s : String) : (⟨s.data⟩ : String) = s := rfl

/-- `"#/components/schemas/" ++ Name` starts with the schemas marker. -/
theorem schemasRef_startsWith_schemas (name : String) :
    strStartsWith ("#/components/schemas/" ++ name) "#/components/schemas/" = true := by
  unfold strStartsWith
  rw [String.data_append]
  simp [List.isPrefixOf]

/-- `"#/components/schemas/" ++ Name` never starts with the parameters
marker (the two markers differ at their 14th character). -/
theorem schemasRef_not_startsWith_parameters (name : String) :
    strStartsWith ("#/components/schemas/" ++ name) "#/components/parameters/" = false := by
  unfold strStartsWith
  rw [String.data_append]
  rfl

/-- `split('/')[-1]` of `"#/components/schemas/" ++ Name` is `Name` when
`Name` has no `'/'`. -/
theorem lastComp_schemasRef (name : String)
    (h : name.data.all (fun c => !(c == '/')) = true) :
    lastComp ("#/components/schemas/" ++ name) = name := by
  unfold lastComp
  rw [String.data_append, List.reverse_append]
  have hrev : ∀ x ∈ name.data.reverse, (fun c => !(c == '/')) x = true := by
    intro x hx
    exact (List.all_eq_true.mp h) x (List.mem_reverse.mp hx)
  have hsplit : "#/components/schemas/".data.reverse = '/' ::
      "samehcs/stnenopmoc/#".data := rfl
  rw [hsplit, takeWhileSplit name.data.reverse '/' _ hrev (by rfl)]
  rw [List.reverse_reverse]

/-! ## C2 -/

/-- C2: for every reference string and every `depth > 10`,
`SchemaResolver.resolve` returns an empty object regardless of the
reference's validity, and the resolver's cache is unchanged (no entry is
cached under the reference). -/
theorem resolve_depth_guard (spec : OpenAPISpec) (cache : Cache) (ref : String)
    (depth : Nat) (h : depth > 10) :
    SchemaResolver.resolve spec cache ref depth = (cache, .obj []) := by
  unfold SchemaResolver.resolve
  have h0 : 11 - depth = 0 := by omega
  rw [h0]
  rfl

/-- Witness for C2 at `depth = 11` on a syntactically valid reference into a
spec that does define the schema. -/
theorem resolve_depth_guard_witness :
    (11 : Nat) > 10 ∧
    SchemaResolver.resolve
      (OpenAPISpec.from_dict (.obj [("components", .obj [("schemas",
        .obj [("User", .obj [("type", .str "object")])])])]))
      [] "#/components/schemas/User" 11 = ([], .obj []) :=
  ⟨by omega, resolve_depth_guard _ _ _ _ (by omega)⟩

/-! ## C3 -/

/-- C3: resolving `#/components/schemas/<Name>` for a `Name` absent from the
spec's schemas view yields the empty object (cached under the reference);
the missing reference degrades to an empty object instead of failing. -/
theorem resolve_missing_schema (spec : OpenAPISpec) (cache : Cache)
    (sfields : JObj) (name : String)
    (hs : spec.schemas = .obj sfields)
    (hname : name.data.all (fun c => !(c == '/')) = true)
    (habs : dictLookup sfields name = none)
    (hcache : dictLookup cache ("#/components/schemas/" ++ name) = none) :
    SchemaResolver.resolve spec cache ("#/components/schemas/" ++ name) 0 =
      (dictInsert cache ("#/components/schemas/" ++ name) (.obj []), .obj []) := by
  unfold SchemaResolver.resolve
  show resolveF spec (10 + 1) cache _ = _
  rw [resolveF]
  rw [hcache]
  simp only [schemasRef_startsWith_schemas,
    schemasRef_not_startsWith_parameters, Bool.false_eq_true, if_false, if_true]
  rw [lastComp_schemasRef name hname, hs]
  simp only [pyGet, habs, Option.getD_none, dictLookup]

/-- Witness for C3: `"Ghost"` is not among the schemas. -/
theorem resolve_missing_schema_witness :
    dictLookup [("User", JValue.obj [("type", .str "object")])] "Ghost" = none ∧
    SchemaResolver.resolve
      (OpenAPISpec.from_dict (.obj [("components", .obj [("schemas",
        .obj [("User", .obj [("type", .str "object")])])])]))
      [] ("#/components/schemas/" ++ "Ghost") 0 =
      ([("#/components/schemas/" ++ "Ghost", .obj [])], .obj []) :=
  ⟨rfl, resolve_missing_schema _ _ _ _ rfl rfl rfl rfl⟩

/-! ## C9 -/

/-- C9: when the schemas view maps `Name` to a dict that contains `$ref`
(with or without sibling keys), `resolve("#/components/schemas/" ++ Name)`
returns exactly the resolution of that inner reference at `depth + 1` (one
extra hop) and caches it; the entry's sibling keys do not appear in the
result. -/
theorem resolve_schema_entry_ref_hop (spec : OpenAPISpec) (cache : Cache)
    (sfields fs : JObj) (name r : String)
    (hs : spec.schemas = .obj sfields)
    (hname : name.data.all (fun c => !(c == '/')) = true)
    (hschema : dictLookup sfields name = some (.obj fs))
    (href : dictLookup fs "$ref" = some (.str r))
    (hcache : dictLookup cache ("#/components/schemas/" ++ name) = none) :
    SchemaResolver.resolve spec cache ("#/components/schemas/" ++ name) 0 =
      (dictInsert (SchemaResolver.resolve spec cache r 1).1
         ("#/components/schemas/" ++ name)
         (SchemaResolver.resolve spec cache r 1).2,
       (SchemaResolver.resolve spec cache r 1).2) := by
  unfold SchemaResolver.resolve
  show resolveF spec (10 + 1) cache _ = _
  rw [resolveF]
  rw [hcache]
  simp only [schemasRef_startsWith_schemas,
    schemasRef_not_startsWith_parameters, Bool.false_eq_true, if_false, if_true]
  rw [lastComp_schemasRef name hname, hs]
  simp only [pyGet, hschema, Option.getD_some, href]

/-- Witness for C9: `"Alias"` maps to a `$ref` node carrying a sibling
`description`; resolution returns the target's body only. -/
theorem resolve_schema_entry_ref_hop_witness :
    dictLookup
      [("$ref", JValue.str "#/components/schemas/User"),
       ("description", JValue.str "alias docs")] "$ref" =
      some (.str "#/components/schemas/User") ∧
    SchemaResolver.resolve
      (OpenAPISpec.from_dict (.obj [("components", .obj [("schemas", .obj
        [("Alias", .obj [("$ref", .str "#/components/schemas/User"),
                         ("description", .str "alias docs")]),
         ("User", .obj [("type", .str "object")])])])]))
      [] ("#/components/schemas/" ++ "Alias") 0 =
      (dictInsert
        (SchemaResolver.resolve
          (OpenAPISpec.from_dict (.obj [("components", .obj [("schemas", .obj
            [("Alias", .obj [("$ref", .str "#/components/schemas/User"),
                             ("description", .str "alias docs")]),
             ("User", .obj [("type", .str "object")])])])]))
          [] "#/components/schemas/User" 1).1
        ("#/components/schemas/" ++ "Alias")
        (SchemaResolver.resolve
          (OpenAPISpec.from_dict (.obj [("components", .obj [("schemas", .obj
            [("Alias", .obj [("$ref", .str "#/components/schemas/User"),
                             ("description", .str "alias docs")]),
             ("User", .obj [("type", .str "object")])])])]))
          [] "#/components/schemas/User" 1).2,
       (SchemaResolver.resolve
          (OpenAPISpec.from_dict (.obj [("components", .obj [("schemas", .obj
            [("Alias", .obj [("$ref", .str "#/components/schemas/User"),
                             ("description", .str "alias docs")]),
             ("User", .obj [("type", .str "object")])])])]))
          [] "#/components/schemas/User" 1).2) :=
  ⟨rfl, resolve_schema_entry_ref_hop _ _ _ _ _ _ rfl rfl rfl rfl rfl⟩

/-! ## C6 -/

mutual
/-- No `$ref` key at any nesting level. -/
def noRef : JValue → Bool
  | .obj fields => noRefFields fields
  | .arr items => noRefItems items
  | _ => true

def noRefFields : JObj → Bool
  | [] => true
  | (k, v) :: rest => (!(k == "$ref")) && noRef v && noRefFields rest

def noRefItems : List JValue → Bool
  | [] => true
  | v :: rest => noRef v && noRefItems rest
end

theorem noRefFields_lookup (fields : JObj) (h : noRefFields fields = true) :
    dictLookup fields "$ref" = none := by
  induction fields with
  | nil => rfl
  | cons kv rest ih =>
    obtain ⟨k, v⟩ := kv
    rw [noRefFields] at h
    simp only [Bool.and_eq_true, Bool.not_eq_eq_eq_not, Bool.not_true] at h
    rw [dictLookup]
    simp only [h.1.1, if_false]
    exact ih h.2

theorem noRefFields_head (k : String) (v : JValue) (rest : JObj)
    (h : noRefFields ((k, v) :: rest) = true) :
    noRef v = true ∧ noRefFields rest = true := by
  rw [noRefFields] at h
  simp only [Bool.and_eq_true] at h
  exact ⟨h.1.2, h.2⟩

theorem noRefItems_head (v : JValue) (rest : List JValue)
    (h : noRefItems (v :: rest) = true) :
    noRef v = true ∧ noRefItems rest = true := by
  rw [noRefItems] at h
  simpa [Bool.and_eq_true] using h

theorem procFields_identity (spec : OpenAPISpec) (fuel : Nat)
    (ih : ∀ cache node, noRef node = true →
      processF spec fuel cache node = (cache, node)) :
    ∀ cache fields, noRefFields fields = true →
      procFieldsWith (processF spec fuel) cache fields = (cache, fields) := by
  intro cache fields
  induction fields generalizing cache with
  | nil => intro _; rfl
  | cons kv rest ihf =>
    intro h
    obtain ⟨k, v⟩ := kv
    obtain ⟨hv, hrest⟩ := noRefFields_head k v rest h
    rw [procFieldsWith]
    by_cases hc : isContainer v = true
    · simp only [hc, if_true, ih cache v hv, ihf cache hrest]
    · simp only [Bool.not_eq_true] at hc
      simp only [hc, Bool.false_eq_true, if_false, ihf cache hrest]

theorem procItems_identity (spec : OpenAPISpec) (fuel : Nat)
    (ih : ∀ cache node, noRef node = true →
      processF spec fuel cache node = (cache, node)) :
    ∀ cache items, noRefItems items = true →
      procItemsWith (processF spec fuel) cache items = (cache, items) := by
  intro cache items
  induction items generalizing cache with
  | nil => intro _; rfl
  | cons v rest ihl =>
    intro h
    obtain ⟨hv, hrest⟩ := noRefItems_head v rest h
    rw [procItemsWith]
    by_cases hc : isContainer v = true
    · simp only [hc, if_true, ih cache v hv, ihl cache hrest]
    · simp only [Bool.not_eq_true] at hc
      simp only [hc, Bool.false_eq_true, if_false, ihl cache hrest]

theorem processF_identity (spec : OpenAPISpec) :
    ∀ fuel cache node, noRef node = true →
      processF spec fuel cache node = (cache, node) := by
  intro fuel
  induction fuel with
  | zero => intro cache node _; rfl
  | succ f ih =>
    intro cache node h
    match node with
    | .obj fields =>
      rw [noRef] at h
      rw [processF]
      simp only [noRefFields_lookup fields h]
      rw [procFields_identity spec f ih cache fields h]
    | .arr items =>
      rw [noRef] at h
      rw [processF]
      rw [procItems_identity spec f ih cache items h]
    | .null => rfl
    | .bool _ => rfl
    | .num _ => rfl
    | .str _ => rfl

/-- C6: on a schema object with no `$ref` at any nesting level,
`process_schema` is the identity transformation (result structurally equal to
the input, cache untouched), at every starting depth. -/
theorem process_schema_identity (spec : OpenAPISpec) (cache : Cache)
    (node : JValue) (depth : Nat) (h : noRef node = true) :
    SchemaResolver.process_schema spec cache node depth = (cache, node) := by
  unfold SchemaResolver.process_schema
  exact processF_identity spec (11 - depth) cache node h

/-- Witness for C6 on a nested ref-free schema at depth 0. -/
theorem process_schema_identity_witness :
    noRef (.obj [("type", .str "object"), ("properties", .obj
      [("id", .obj [("type", .str "string")]),
       ("tags", .arr [.obj [("type", .str "string")]])])]) = true ∧
    SchemaResolver.process_schema (OpenAPISpec.from_dict (.obj [])) []
      (.obj [("type", .str "object"), ("properties", .obj
        [("id", .obj [("type", .str "string")]),
         ("tags", .arr [.obj [("type", .str "string")]])])]) 0 =
      ([], .obj [("type", .str "object"), ("properties", .obj
        [("id", .obj [("type", .str "string")]),
         ("tags", .arr [.obj [("type", .str "string")]])])]) :=
  ⟨rfl, process_schema_identity _ _ _ _ rfl⟩

/-! ## C1 -/

/-- The generic field pass never changes a scalar value found under a key:
lookups of non-container values survive `procFieldsWith`. -/
theorem procFields_lookup_scalar (g : Cache → JValue → Cache × JValue) :
    ∀ cache fields (key : String) (v : JValue),
      dictLookup fields key = some v → isContainer v = false →
      dictLookup (procFieldsWith g cache fields).2 key = some v := by
  intro cache fields
  induction fields generalizing cache with
  | nil => intro key v h _; cases h
  | cons kv rest ih =>
    intro key v h hnc
    obtain ⟨k, w⟩ := kv
    rw [dictLookup] at h
    by_cases hk : (k == key) = true
    · simp only [hk, if_true] at h
      injection h with hw
      subst hw
      rw [procFieldsWith]
      simp only [hnc, Bool.false_eq_true, if_false, dictLookup, hk, if_true]
    · simp only [hk, Bool.false_eq_true, if_false] at h
      rw [procFieldsWith]
      by_cases hc : isContainer w = true
      · simp only [hc, if_true, dictLookup, hk, Bool.false_eq_true, if_false]
        exact ih _ key v h hnc
      · simp only [Bool.not_eq_true] at hc
        simp only [hc, Bool.false_eq_true, if_false, dictLookup, hk, if_false]
        exact ih _ key v h hnc

/-- C1: at `depth ≤ 10`, a dict node carrying `$ref = R` with siblings `S`:
when `resolve(R)` (at its default depth 0) is a non-empty object, the result
is the reprocessing, at `depth + 1`, of the object
`{**resolved, **S}` (sibling keys win) extended with the marker key
`x-original-ref = R`; when `resolve(R)` is empty, the node is handled
generically and the `$ref` key survives into the output. -/
theorem process_schema_ref_merge (spec : OpenAPISpec) (cache : Cache)
    (fields : JObj) (r : String) (depth : Nat) (cache' : Cache) (rf : JObj)
    (hd : depth ≤ 10)
    (href : dictLookup fields "$ref" = some (.str r))
    (hres : SchemaResolver.resolve spec cache r 0 = (cache', .obj rf)) :
    (rf ≠ [] →
      SchemaResolver.process_schema spec cache (.obj fields) depth =
        SchemaResolver.process_schema spec cache'
          (.obj (dictInsert
            (pyMerge rf (fields.filter (fun kv => !(kv.1 == "$ref"))))
            "x-original-ref" (.str r)))
          (depth + 1)) ∧
    (rf = [] →
      ∃ cacheOut out,
        SchemaResolver.process_schema spec cache (.obj fields) depth =
          (cacheOut, .obj out) ∧
        dictLookup out "$ref" = some (.str r)) := by
  have hres' : resolveF spec 11 cache r = (cache', .obj rf) := hres
  have h11 : 11 - depth = (10 - depth) + 1 := by omega
  have h11' : 11 - (depth + 1) = 10 - depth := by omega
  constructor
  · intro hne
    have htr : truthy (.obj rf) = true := by
      cases rf with
      | nil => exact absurd rfl hne
      | cons a l => rfl
    unfold SchemaResolver.process_schema
    rw [h11, h11', processF]
    simp only [href, hres', htr, if_true]
  · intro hnil
    subst hnil
    unfold SchemaResolver.process_schema
    rw [h11, processF]
    simp only [href, hres']
    have htr : truthy (.obj []) = false := rfl
    simp only [htr, Bool.false_eq_true, if_false]
    refine ⟨_, _, rfl, ?_⟩
    exact procFields_lookup_scalar _ _ _ _ _ href rfl

/-- The concrete spec, node and resolver outputs used by the C1 witness. -/
def c1Spec : OpenAPISpec :=
  OpenAPISpec.from_dict (.obj [("components", .obj [("schemas",
    .obj [("User", .obj [("type", .str "object")])])])])

def c1Fields : JObj :=
  [("$ref", .str "#/components/schemas/User"), ("description", .str "d")]

def c1Cache : Cache :=
  [("#/components/schemas/User", .obj [("type", .str "object")])]

/-- Witness for C1 (non-empty branch): a `$ref` node with a sibling
`description`, the merge and marker spelled out. -/
theorem process_schema_ref_merge_witness :
    dictLookup c1Fields "$ref" = some (.str "#/components/schemas/User") ∧
    SchemaResolver.process_schema c1Spec [] (.obj c1Fields) 0 =
      SchemaResolver.process_schema c1Spec c1Cache
        (.obj (dictInsert
          (pyMerge [("type", JValue.str "object")]
            (c1Fields.filter (fun kv => !(kv.1 == "$ref"))))
          "x-original-ref" (.str "#/components/schemas/User")))
        1 :=
  ⟨rfl,
   (process_schema_ref_merge c1Spec [] c1Fields "#/components/schemas/User" 0
     c1Cache [("type", JValue.str "object")]
     (by omega) rfl rfl).1 (by simp)⟩

/-! ## C4 -/

/-- A spec with a cyclic pair of schemas: `X`'s body references `Y` and
`Y`'s body references `X`. -/
def cyclicSpec : OpenAPISpec := OpenAPISpec.from_dict (.obj [
  ("components", .obj [("schemas", .obj [
    ("X", .obj [("properties", .obj
      [("y", .obj [("$ref", .str "#/components/schemas/Y")])])]),
    ("Y", .obj [("properties", .obj
      [("x", .obj [("$ref", .str "#/components/schemas/X")])])])])])])

/-- An endpoint whose response schema references the cyclic schema `X`. -/
def cyclicEndpoint : Endpoint := mkEndpoint "/c" "get"
  (.obj [("responses", .obj [("200", .obj [("content", .obj
    [("application/json", .obj [("schema", .obj
      [("$ref", .str "#/components/schemas/X")])])])])])])
  (.arr [.str "t"])

/-- C4: on an endpoint referencing the cyclic pair `X -> Y -> X`,
`collect_from_endpoint` terminates (a `some` result with fuel 30: the fuel
embedding returns `none` as soon as any branch of the recursion would exceed
the fuel, so `some` certifies the Python recursion bottoms out) and collects
exactly `{"X", "Y"}`, each name once, because each name is added to the
collected set before its resolved body is recursed into. -/
theorem collect_cyclic_pair :
    (SchemaCollector.collect_from_endpoint cyclicSpec 30 [] cyclicEndpoint).map
      (fun st => st.2) = some ["X", "Y"] := rfl

/-! ## C5 -/

/-- A spec defining both the without-slash and the with-slash form of the
same path, with distinct operations. -/
def bothSlashSpec : OpenAPISpec := OpenAPISpec.from_dict (.obj [
  ("paths", .obj [
    ("/a", .obj [("get", .obj [("operationId", .str "one")])]),
    ("/a/", .obj [("get", .obj [("operationId", .str "two")])])])])

/-- C5 counterexample: with both `"/a"` and `"/a/"` defined, the query for
the with-slash form `"/a/"` returns the endpoint stored under `"/a"` -- the
returned path does **not** carry the trailing slash, because `find` strips
trailing slashes from the query before its first lookup. -/
theorem find_with_slash_counterexample :
    (EndpointFinder.find bothSlashSpec "/a/" "get").map (fun e => e.path) =
      .ok "/a" ∧
    (EndpointFinder.find bothSlashSpec "/a/" "get").map
        (fun e => e.operation) =
      .ok (.obj [("operationId", .str "one")]) ∧
    ("/a" : String) ≠ "/a/" :=
  ⟨rfl, rfl, by decide⟩

/-- C5 amended: `find` first strips every trailing slash from the query; it
looks up the stripped path first and only then the stripped path plus a
trailing slash, and the returned endpoint's stored path is whichever variant
matched.  (Consequently a with-slash query for a doubly-defined path returns
the without-slash endpoint, never the with-slash one.) -/
theorem find_trailing_slash_behavior (spec : OpenAPISpec) (path method : String) :
    (∀ m opInfo,
      pyGetOpt spec.paths (rstripSlash path) = some m → truthy m = true →
      pyGet m (strLower method) .null = opInfo → truthy opInfo = true →
      EndpointFinder.find spec path method =
        .ok (mkEndpoint (rstripSlash path) method opInfo
          (pyGet opInfo "tags" (.arr [.str "Без тега"])))) ∧
    (∀ m opInfo,
      ((pyGetOpt spec.paths (rstripSlash path)).map truthy).getD false = false →
      pyGetOpt spec.paths (rstripSlash path ++ "/") = some m → truthy m = true →
      pyGet m (strLower method) .null = opInfo → truthy opInfo = true →
      EndpointFinder.find spec path method =
        .ok (mkEndpoint (rstripSlash path ++ "/") method opInfo
          (pyGet opInfo "tags" (.arr [.str "Без тега"])))) := by
  constructor
  · intro m opInfo h1 h2 h3 h4
    unfold EndpointFinder.find
    simp only [h1, Option.map_some', h2, Option.getD_some, if_true, h3, h4]
  · intro m opInfo h0 h1 h2 h3 h4
    unfold EndpointFinder.find
    simp only [h0, Bool.false_eq_true, if_false, h1, Option.map_some', h2,
      Option.getD_some, if_true, h3, h4]

/-- Witness for the amended C5: the stripped path is tried first (the
with-slash query hits the without-slash entry), and a path defined only with
a slash is reached through the second lookup. -/
theorem find_trailing_slash_behavior_witness :
    pyGetOpt bothSlashSpec.paths (rstripSlash "/a/") =
      some (.obj [("get", .obj [("operationId", .str "one")])]) ∧
    EndpointFinder.find bothSlashSpec "/a/" "get" =
      .ok (mkEndpoint (rstripSlash "/a/") "get"
        (.obj [("operationId", .str "one")])
        (pyGet (.obj [("operationId", .str "one")]) "tags"
          (.arr [.str "Без тега"]))) :=
  ⟨rfl,
   (find_trailing_slash_behavior bothSlashSpec "/a/" "get").1
     (.obj [("get", .obj [("operationId", .str "one")])])
     (.obj [("operationId", .str "one")]) rfl rfl rfl rfl⟩

/-! ## C7 -/

theorem dropWhileRev_id (p : String) (hp : p.data.getLast? ≠ some '/') :
    p.data.reverse.dropWhile (fun c => c == '/') = p.data.reverse := by
  cases hrev : p.data.reverse with
  | nil => rfl
  | cons c t =>
    have hlast : p.data.getLast? = some c := by
      rw [← List.head?_reverse, hrev]; rfl
    have hc : (c == '/') = false := by
      apply beq_eq_false_iff_ne.mpr
      intro h; exact hp (h ▸ hlast)
    rw [List.dropWhile_cons, hc]
    simp

theorem rstripSlash_id (p : String) (hp : p.data.getLast? ≠ some '/') :
    rstripSlash p = p := by
  unfold rstripSlash
  rw [dropWhileRev_id p hp, List.reverse_reverse]

theorem rstripSlash_append (p : String) (hp : p.data.getLast? ≠ some '/') :
    rstripSlash (p ++ "/") = p := by
  unfold rstripSlash
  have hdata : (p ++ "/").data = p.data ++ ['/'] := String.data_append p "/"
  rw [hdata, List.reverse_append]
  simp only [List.reverse_cons, List.reverse_nil, List.nil_append,
    List.singleton_append, List.dropWhile_cons, beq_self_eq_true, if_true]
  rw [dropWhileRev_id p hp, List.reverse_reverse]

/-- C7: a filter built by `from_set` matches a registered `(method, path)`
pair for all four combinations of trailing-slash presence on the registered
versus queried path (over a base path not itself ending in `'/'`), and the
method comparison is case-insensitive (`strUpper m' = strUpper m`). -/
theorem filter_matches_slash_insensitive (S : List (String × String))
    (m m' p r q : String)
    (hmem : (m, r) ∈ S)
    (hm : strUpper m' = strUpper m)
    (hp : p.data.getLast? ≠ some '/')
    (hr : r = p ∨ r = p ++ "/")
    (hq : q = p ∨ q = p ++ "/") :
    (EndpointFilter.from_set S).matches m' q = true := by
  have hrq : rstripSlash q = p := by
    cases hq with
    | inl h => rw [h]; exact rstripSlash_id p hp
    | inr h => rw [h]; exact rstripSlash_append p hp
  have hmem' : (strUpper m, r) ∈ (EndpointFilter.from_set S).endpoints := by
    unfold EndpointFilter.from_set
    exact List.mem_map.mpr ⟨(m, r), hmem, rfl⟩
  unfold EndpointFilter.matches
  simp only [hm, hrq]
  cases hr with
  | inl h =>
    subst h
    simp
    exact Or.inl hmem'
  | inr h =>
    subst h
    simp
    exact Or.inr hmem'

/-- Witness for C7: registered `("get", "/x/")`, queried with `"GeT"` and
the slash-free variant `"/x"`. -/
theorem filter_matches_slash_insensitive_witness :
    ("get", "/x/") ∈ [("get", "/x/")] ∧
    (EndpointFilter.from_set [("get", "/x/")]).matches "GeT" "/x" = true :=
  ⟨by simp,
   filter_matches_slash_insensitive [("get", "/x/")] "get" "GeT" "/x" "/x/" "/x"
     (by simp) (by decide) (by decide) (Or.inr (by decide)) (Or.inl rfl)⟩

/-! ## Shared machinery for the verifier claims (C8, C10) -/

theorem strIn_iff_within (needle hay : List Char) :
    strIn needle hay = true ↔ needle <:+: hay := by
  induction hay with
  | nil =>
    rw [strIn]
    constructor
    · intro h
      have : needle = [] := by
        cases needle with
        | nil => rfl
        | cons a l => simp [List.isEmpty] at h
      subst this
      exact List.infix_rfl
    · intro h
      have : needle = [] := by
        have hlen := h.length_le
        simpa using hlen
      subst this
      rfl
  | cons c rest ih =>
    rw [strIn]
    constructor
    · intro h
      rw [Bool.or_eq_true] at h
      cases h with
      | inl hp => exact (( List.isPrefixOf_iff_prefix).mp hp).isInfix
      | inr hi => exact List.infix_cons_iff.mpr (Or.inr (ih.mp hi))
    · intro h
      rw [Bool.or_eq_true]
      cases List.infix_cons_iff.mp h with
      | inl hp => exact Or.inl (( List.isPrefixOf_iff_prefix).mpr hp)
      | inr hi => exact Or.inr (ih.mpr hi)

theorem window_within (md : List Char) (i n : Nat) :
    (md.drop i).take n <:+: md :=
  (( List.take_prefix n (md.drop i)).isInfix).trans
    ((List.drop_suffix i md).isInfix)

/-- A keyword found inside a window of the document occurs in the whole
document. -/
theorem strIn_window_plain (kw md : List Char) (i n : Nat)
    (h : strIn kw ((md.drop i).take n) = true) : strIn kw md = true := by
  rw [strIn_iff_within] at h ⊢
  exact h.trans (window_within md i n)

/-- The same through lower-casing. -/
theorem strIn_window_lower (kw md : List Char) (i n : Nat)
    (h : strIn kw (lowerCL ((md.drop i).take n)) = true) :
    strIn kw (lowerCL md) = true := by
  rw [strIn_iff_within] at h ⊢
  exact h.trans (List.IsInfix.map pyLowerChar (window_within md i n))

theorem pyGet_of_opt (v : JValue) (k : String) (d w : JValue)
    (h : pyGetOpt v k = some w) : pyGet v k d = w := by
  cases v <;> simp [pyGetOpt] at h
  case obj fields => simp [pyGet, h]

theorem securityCheck_alltype (md : List Char) (e : Endpoint) :
    ∀ i ∈ (securityCheck md e).1, i.type = "missing_security" := by
  intro i hi
  unfold securityCheck at hi
  repeat' split at hi
  all_goals (try simp_all)
  all_goals (split at hi <;> simp_all)

theorem deprecatedCheck_alltype (md : List Char) (e : Endpoint) :
    ∀ i ∈ (deprecatedCheck md e).1, i.type = "missing_deprecated" := by
  intro i hi
  unfold deprecatedCheck at hi
  repeat' split at hi
  all_goals simp_all

theorem operationIdCheck_alltype (md : List Char) (op : JValue) :
    ∀ i ∈ (operationIdCheck md op).1, i.type = "missing_operation_id" := by
  intro i hi
  unfold operationIdCheck at hi
  repeat' split at hi
  all_goals simp_all

theorem descriptionCheck_alltype (md : List Char) (op : JValue) :
    ∀ i ∈ (descriptionCheck md op).1, i.type = "missing_description" := by
  intro i hi
  unfold descriptionCheck at hi
  repeat' split at hi
  all_goals simp_all

theorem filterType_nil_of_ne (xs : List Issue) (s t : String)
    (hall : ∀ i ∈ xs, i.type = s) (hne : (s == t) = false) :
    xs.filter (fun i => i.type == t) = [] := by
  rw [List.filter_eq_nil_iff]
  intro a ha
  rw [hall a ha, hne]
  simp

theorem filterType_self (xs : List Issue) (t : String)
    (hall : ∀ i ∈ xs, i.type = t) :
    xs.filter (fun i => i.type == t) = xs :=
  List.filter_eq_self.mpr (fun a ha => by rw [hall a ha]; simp)

/-- The issue list of `verify_endpoint` is the concatenation of the seven
checks, in source order. -/
theorem verify_issues_decomp (jsonLoads : String → Option JValue)
    (e : Endpoint) (mdS : String) :
    (DocumentationVerifier.verify_endpoint jsonLoads e mdS).issues =
      (securityCheck mdS.data e).1 ++ (deprecatedCheck mdS.data e).1 ++
      (operationIdCheck mdS.data e.operation).1 ++
      (descriptionCheck mdS.data e.operation).1 ++
      (responseMissing jsonLoads mdS.data e).map respIssueOf ++
      (paramMissing mdS.data e).map parIssueOf ++
      (bodyMissing mdS.data e).map bodIssueOf := rfl

/-- The count of issues of one type, check by check. -/
theorem countType_decomp (jsonLoads : String → Option JValue)
    (e : Endpoint) (mdS : String) (t : String) :
    ((DocumentationVerifier.verify_endpoint jsonLoads e mdS).issues.filter
      (fun i => i.type == t)).length =
    ((securityCheck mdS.data e).1.filter (fun i => i.type == t)).length +
    ((deprecatedCheck mdS.data e).1.filter (fun i => i.type == t)).length +
    ((operationIdCheck mdS.data e.operation).1.filter
        (fun i => i.type == t)).length +
    ((descriptionCheck mdS.data e.operation).1.filter
        (fun i => i.type == t)).length +
    (((responseMissing jsonLoads mdS.data e).map respIssueOf).filter
        (fun i => i.type == t)).length +
    (((paramMissing mdS.data e).map parIssueOf).filter
        (fun i => i.type == t)).length +
    (((bodyMissing mdS.data e).map bodIssueOf).filter
        (fun i => i.type == t)).length := by
  rw [verify_issues_decomp]
  simp [List.filter_append]
  omega

theorem respIssues_alltype (l : List (String × String × JValue)) :
    ∀ i ∈ l.map respIssueOf, i.type = "missing_response_example" := by
  intro i hi
  rcases List.mem_map.mp hi with ⟨m, _, rfl⟩
  rfl

theorem parIssues_alltype (l : List (String × JValue)) :
    ∀ i ∈ l.map parIssueOf, i.type = "missing_parameter_example" := by
  intro i hi
  rcases List.mem_map.mp hi with ⟨m, _, rfl⟩
  rfl

theorem bodIssues_alltype (l : List (String × JValue)) :
    ∀ i ∈ l.map bodIssueOf, i.type = "missing_request_body_example" := by
  intro i hi
  rcases List.mem_map.mp hi with ⟨m, _, rfl⟩
  rfl

/-! ## C8 -/

/-- C8: for an operation whose `deprecated` entry is truthy,
`verify_endpoint` emits exactly one issue, of type `missing_deprecated` and
severity `medium`, whenever the rendered text carries no deprecation marker
anywhere (no lower-cased `устарел` or `deprecated`, no `⚠️`); and it emits
no issue of that type when the endpoint's section -- the 500-character window
after its heading -- carries a deprecation marker. -/
theorem verify_deprecated_check (jsonLoads : String → Option JValue)
    (e : Endpoint) (mdS : String) (dval : JValue)
    (hdep : pyGetOpt e.operation "deprecated" = some dval)
    (ht : truthy dval = true) :
    ((strIn "устарел".data (lowerCL mdS.data) = false) →
     (strIn "deprecated".data (lowerCL mdS.data) = false) →
     (strIn "⚠️".data mdS.data = false) →
     (DocumentationVerifier.verify_endpoint jsonLoads e mdS).issues.filter
        (fun i => i.type == "missing_deprecated") =
       [{ type := "missing_deprecated", severity := "medium",
          message := "Deprecated статус не отображается в Markdown" }]) ∧
    (∀ j, headingIdx e mdS.data = some j →
     (strIn "устарел".data (lowerCL ((mdS.data.drop j).take 500)) ||
      strIn "deprecated".data (lowerCL ((mdS.data.drop j).take 500)) ||
      strIn "⚠️".data ((mdS.data.drop j).take 500)) = true →
     (DocumentationVerifier.verify_endpoint jsonLoads e mdS).issues.filter
        (fun i => i.type == "missing_deprecated") = []) := by
  have hPyGet : pyGet e.operation "deprecated" (.bool false) = dval :=
    pyGet_of_opt _ _ _ _ hdep
  constructor
  · intro h1 h2 h3
    have hchk : checkDeprecatedInMarkdown mdS.data e = false := by
      unfold checkDeprecatedInMarkdown
      cases hh : headingIdx e mdS.data with
      | none => rfl
      | some j =>
        have w1 : strIn "устарел".data
            (lowerCL ((mdS.data.drop j).take 500)) = false := by
          cases hv : strIn "устарел".data (lowerCL ((mdS.data.drop j).take 500)) with
          | false => rfl
          | true =>
            have := strIn_window_lower _ _ _ _ hv
            rw [h1] at this
            cases this
        have w2 : strIn "deprecated".data
            (lowerCL ((mdS.data.drop j).take 500)) = false := by
          cases hv : strIn "deprecated".data (lowerCL ((mdS.data.drop j).take 500)) with
          | false => rfl
          | true =>
            have := strIn_window_lower _ _ _ _ hv
            rw [h2] at this
            cases this
        have w3 : strIn "⚠️".data ((mdS.data.drop j).take 500) = false := by
          cases hv : strIn "⚠️".data ((mdS.data.drop j).take 500) with
          | false => rfl
          | true =>
            have := strIn_window_plain _ _ _ _ hv
            rw [h3] at this
            cases this
        simp [w1, w2, w3]
    have hdepc : deprecatedCheck mdS.data e =
        ([{ type := "missing_deprecated", severity := "medium",
            message := "Deprecated статус не отображается в Markdown" }], true) := by
      unfold deprecatedCheck
      rw [hPyGet]
      simp [ht, hchk]
    rw [verify_issues_decomp]
    simp only [List.filter_append]
    rw [filterType_nil_of_ne _ _ _ (securityCheck_alltype mdS.data e) (by decide),
        hdepc,
        filterType_nil_of_ne _ _ _ (operationIdCheck_alltype mdS.data e.operation)
          (by decide),
        filterType_nil_of_ne _ _ _ (descriptionCheck_alltype mdS.data e.operation)
          (by decide),
        filterType_nil_of_ne _ _ _ (respIssues_alltype _) (by decide),
        filterType_nil_of_ne _ _ _ (parIssues_alltype _) (by decide),
        filterType_nil_of_ne _ _ _ (bodIssues_alltype _) (by decide)]
    simp
  · intro j hh hw
    have hchk : checkDeprecatedInMarkdown mdS.data e = true := by
      unfold checkDeprecatedInMarkdown
      rw [hh]
      exact hw
    have hdepc : deprecatedCheck mdS.data e = ([], false) := by
      unfold deprecatedCheck
      rw [hPyGet]
      simp [ht, hchk]
    rw [verify_issues_decomp]
    simp only [List.filter_append]
    rw [filterType_nil_of_ne _ _ _ (securityCheck_alltype mdS.data e) (by decide),
        hdepc,
        filterType_nil_of_ne _ _ _ (operationIdCheck_alltype mdS.data e.operation)
          (by decide),
        filterType_nil_of_ne _ _ _ (descriptionCheck_alltype mdS.data e.operation)
          (by decide),
        filterType_nil_of_ne _ _ _ (respIssues_alltype _) (by decide),
        filterType_nil_of_ne _ _ _ (parIssues_alltype _) (by decide),
        filterType_nil_of_ne _ _ _ (bodIssues_alltype _) (by decide)]
    simp

/-- Witness for C8 (missing branch): a deprecated operation against rendered
text with no deprecation marker. -/
theorem verify_deprecated_check_witness :
    pyGetOpt (JValue.obj [("deprecated", .bool true)]) "deprecated" =
      some (.bool true) ∧
    (DocumentationVerifier.verify_endpoint (fun _ => none)
        (mkEndpoint "/d" "get" (.obj [("deprecated", .bool true)]) (.arr []))
        "# Docs with no markers").issues.filter
      (fun i => i.type == "missing_deprecated") =
      [{ type := "missing_deprecated", severity := "medium",
         message := "Deprecated статус не отображается в Markdown" }] :=
  ⟨rfl,
   (verify_deprecated_check (fun _ => none)
      (mkEndpoint "/d" "get" (.obj [("deprecated", .bool true)]) (.arr []))
      "# Docs with no markers" (.bool true) rfl rfl).1
     (by decide) (by decide) (by decide)⟩

/-! ## C10 -/

theorem extractSecurity_none (md : List Char) (e : Endpoint)
    (hh : headingIdx e md = none) : extractSecurityFromMarkdown md e = false := by
  unfold extractSecurityFromMarkdown
  rw [hh]

theorem checkDeprecated_none (md : List Char) (e : Endpoint)
    (hh : headingIdx e md = none) : checkDeprecatedInMarkdown md e = false := by
  unfold checkDeprecatedInMarkdown
  rw [hh]

theorem mdResponses_none (md : List Char) (e : Endpoint)
    (hh : headingIdx e md = none) :
    extractExamplesFromMarkdownResponses md e = [] := by
  unfold extractExamplesFromMarkdownResponses
  rw [hh]

theorem mdExampleValues_none (jsonLoads : String → Option JValue)
    (md : List Char) (e : Endpoint) (code : String)
    (hh : headingIdx e md = none) :
    extractExampleValuesFromMarkdown jsonLoads md e code = [] := by
  unfold extractExampleValuesFromMarkdown
  rw [hh]

theorem mdParams_none (md : List Char) (e : Endpoint)
    (hh : headingIdx e md = none) :
    extractExamplesFromMarkdownParameters md e = [] := by
  unfold extractExamplesFromMarkdownParameters
  rw [hh]

theorem mdBody_none (md : List Char) (e : Endpoint)
    (hh : headingIdx e md = none) :
    extractExamplesFromMarkdownRequestBody md e = [] := by
  unfold extractExamplesFromMarkdownRequestBody
  rw [hh]

theorem respExampleFound_nil (name : String) (value summary : JValue) :
    respExampleFound name value summary [] [] = false := by
  cases summary <;> cases value <;> rfl

/-- The number of declared response examples across all response codes. -/
def totalResponseExamples (op : JValue) : Nat :=
  ((extractResponseExamples (pyGet op "responses" (.obj []))).map
    (fun ce => ce.2.length)).sum

/-- The number of declared parameter examples across all parameters. -/
def totalParameterExamples (op : JValue) : Nat :=
  ((extractParameterExamples (pyGet op "parameters" (.arr []))).map
    (fun pe => pe.2.length)).sum

/-- The number of declared request-body examples. -/
def totalRequestBodyExamples (op : JValue) : Nat :=
  (extractRequestBodyExamples (pyGet op "requestBody" (.obj []))).length

theorem flatMapCongrOn {α β : Type} (l : List α) (f g : α → List β)
    (h : ∀ a ∈ l, f a = g a) : l.flatMap f = l.flatMap g := by
  induction l with
  | nil => rfl
  | cons a t ih =>
    simp only [List.flatMap_cons]
    rw [h a (List.mem_cons_self a t),
        ih (fun b hb => h b (List.mem_cons_of_mem a hb))]

theorem mapCongrOn {α β : Type} (l : List α) (f g : α → β)
    (h : ∀ a ∈ l, f a = g a) : l.map f = l.map g := by
  induction l with
  | nil => rfl
  | cons a t ih =>
    simp only [List.map_cons]
    rw [h a (List.mem_cons_self a t),
        ih (fun b hb => h b (List.mem_cons_of_mem a hb))]

theorem responseMissing_none (jsonLoads : String → Option JValue)
    (md : List Char) (e : Endpoint) (hh : headingIdx e md = none) :
    responseMissing jsonLoads md e =
      (extractResponseExamples (pyGet e.operation "responses" (.obj []))).flatMap
        (fun ce => ce.2.map (fun nvs => (ce.1, nvs.1, nvs.2.1))) := by
  unfold responseMissing
  rw [mdResponses_none md e hh]
  apply flatMapCongrOn
  intro ce _
  rw [mdExampleValues_none jsonLoads md e ce.1 hh]
  simp only [aLookup, Option.getD_none]
  rw [List.filter_eq_self.mpr]
  intro nvs _
  rw [respExampleFound_nil]
  rfl

theorem paramMissing_none (md : List Char) (e : Endpoint)
    (hh : headingIdx e md = none) :
    paramMissing md e =
      (extractParameterExamples (pyGet e.operation "parameters" (.arr []))).flatMap
        (fun pe => pe.2.map (fun ex => (pe.1, ex))) := by
  unfold paramMissing
  rw [mdParams_none md e hh]
  apply flatMapCongrOn
  intro pe _
  simp only [aLookup, Option.getD_none]
  rw [List.filter_eq_self.mpr]
  intro ex _
  cases ex <;> rfl

theorem bodyMissing_none (md : List Char) (e : Endpoint)
    (hh : headingIdx e md = none) :
    bodyMissing md e =
      extractRequestBodyExamples (pyGet e.operation "requestBody" (.obj [])) := by
  unfold bodyMissing
  rw [mdBody_none md e hh]
  rw [List.filter_eq_self.mpr]
  intro nv _
  rfl

theorem length_respMissing_none (jsonLoads : String → Option JValue)
    (md : List Char) (e : Endpoint) (hh : headingIdx e md = none) :
    (responseMissing jsonLoads md e).length = totalResponseExamples e.operation := by
  rw [responseMissing_none jsonLoads md e hh, List.length_flatMap]
  unfold totalResponseExamples
  rw [mapCongrOn _ _ (fun ce => ce.2.length)]
  intro ce _
  simp [List.length_map]

theorem length_paramMissing_none (md : List Char) (e : Endpoint)
    (hh : headingIdx e md = none) :
    (paramMissing md e).length = totalParameterExamples e.operation := by
  rw [paramMissing_none md e hh, List.length_flatMap]
  unfold totalParameterExamples
  rw [mapCongrOn _ _ (fun pe => pe.2.length)]
  intro pe _
  simp [List.length_map]

theorem length_bodyMissing_none (md : List Char) (e : Endpoint)
    (hh : headingIdx e md = none) :
    (bodyMissing md e).length = totalRequestBodyExamples e.operation := by
  rw [bodyMissing_none md e hh]
  rfl

/-- C10: when the endpoint's heading pattern does not occur in the rendered
text, the windowed checks treat their content as absent no matter what
appears elsewhere in the document -- the security and deprecated checks
report exactly one issue each (when the operation declares them), and every
declared response, parameter and request-body example is reported missing --
while the operationId and description checks still search the entire
document. -/
theorem verify_windowed_checks (jsonLoads : String → Option JValue)
    (e : Endpoint) (mdS : String)
    (hh : headingIdx e mdS.data = none) :
    (∀ sec, pyGetOpt e.operation "security" = some sec → truthy sec = true →
      ((DocumentationVerifier.verify_endpoint jsonLoads e mdS).issues.filter
        (fun i => i.type == "missing_security")).length = 1) ∧
    (∀ dval, pyGetOpt e.operation "deprecated" = some dval → truthy dval = true →
      ((DocumentationVerifier.verify_endpoint jsonLoads e mdS).issues.filter
        (fun i => i.type == "missing_deprecated")).length = 1) ∧
    (((DocumentationVerifier.verify_endpoint jsonLoads e mdS).issues.filter
        (fun i => i.type == "missing_response_example")).length =
      totalResponseExamples e.operation) ∧
    (((DocumentationVerifier.verify_endpoint jsonLoads e mdS).issues.filter
        (fun i => i.type == "missing_parameter_example")).length =
      totalParameterExamples e.operation) ∧
    (((DocumentationVerifier.verify_endpoint jsonLoads e mdS).issues.filter
        (fun i => i.type == "missing_request_body_example")).length =
      totalRequestBodyExamples e.operation) ∧
    (∀ oid, pyGetOpt e.operation "operationId" = some (.str oid) →
      ((DocumentationVerifier.verify_endpoint jsonLoads e mdS).issues.filter
        (fun i => i.type == "missing_operation_id")).length =
        if strIn oid.data mdS.data then 0 else 1) ∧
    (∀ d, pyGetOpt e.operation "description" = some (.str d) →
      truthy (.str d) = true →
      ((DocumentationVerifier.verify_endpoint jsonLoads e mdS).issues.filter
        (fun i => i.type == "missing_description")).length =
        if ((stripWs (d.data.take 50)).isEmpty ||
            strIn (lowerCL (stripWs (d.data.take 50))) (lowerCL mdS.data))
        then 0 else 1) := by
  refine ⟨?_, ?_, ?_, ?_, ?_, ?_, ?_⟩
  · -- security
    intro sec hsec hts
    have hsecc : securityCheck mdS.data e =
        ([{ type := "missing_security", severity := "high",
            message := "Security информация отсутствует в Markdown: " ++
              jsonDumps sec }], sec) := by
      unfold securityCheck
      rw [hsec]
      simp only [hts, if_true]
      rw [extractSecurity_none mdS.data e hh, hh]
      simp
    rw [countType_decomp, hsecc,
        filterType_nil_of_ne _ _ _ (deprecatedCheck_alltype mdS.data e) (by decide),
        filterType_nil_of_ne _ _ _ (operationIdCheck_alltype mdS.data e.operation)
          (by decide),
        filterType_nil_of_ne _ _ _ (descriptionCheck_alltype mdS.data e.operation)
          (by decide),
        filterType_nil_of_ne _ _ _ (respIssues_alltype _) (by decide),
        filterType_nil_of_ne _ _ _ (parIssues_alltype _) (by decide),
        filterType_nil_of_ne _ _ _ (bodIssues_alltype _) (by decide)]
    simp
  · -- deprecated
    intro dval hdval hts
    have hPyGet : pyGet e.operation "deprecated" (.bool false) = dval :=
      pyGet_of_opt _ _ _ _ hdval
    have hdepc : deprecatedCheck mdS.data e =
        ([{ type := "missing_deprecated", severity := "medium",
            message := "Deprecated статус не отображается в Markdown" }], true) := by
      unfold deprecatedCheck
      rw [hPyGet]
      simp [hts, checkDeprecated_none mdS.data e hh]
    rw [countType_decomp, hdepc,
        filterType_nil_of_ne _ _ _ (securityCheck_alltype mdS.data e) (by decide),
        filterType_nil_of_ne _ _ _ (operationIdCheck_alltype mdS.data e.operation)
          (by decide),
        filterType_nil_of_ne _ _ _ (descriptionCheck_alltype mdS.data e.operation)
          (by decide),
        filterType_nil_of_ne _ _ _ (respIssues_alltype _) (by decide),
        filterType_nil_of_ne _ _ _ (parIssues_alltype _) (by decide),
        filterType_nil_of_ne _ _ _ (bodIssues_alltype _) (by decide)]
    simp
  · -- response examples
    rw [countType_decomp,
        filterType_nil_of_ne _ _ _ (securityCheck_alltype mdS.data e) (by decide),
        filterType_nil_of_ne _ _ _ (deprecatedCheck_alltype mdS.data e) (by decide),
        filterType_nil_of_ne _ _ _ (operationIdCheck_alltype mdS.data e.operation)
          (by decide),
        filterType_nil_of_ne _ _ _ (descriptionCheck_alltype mdS.data e.operation)
          (by decide),
        filterType_self _ _ (respIssues_alltype _),
        filterType_nil_of_ne _ _ _ (parIssues_alltype _) (by decide),
        filterType_nil_of_ne _ _ _ (bodIssues_alltype _) (by decide)]
    simp [List.length_map, length_respMissing_none jsonLoads mdS.data e hh]
  · -- parameter examples
    rw [countType_decomp,
        filterType_nil_of_ne _ _ _ (securityCheck_alltype mdS.data e) (by decide),
        filterType_nil_of_ne _ _ _ (deprecatedCheck_alltype mdS.data e) (by decide),
        filterType_nil_of_ne _ _ _ (operationIdCheck_alltype mdS.data e.operation)
          (by decide),
        filterType_nil_of_ne _ _ _ (descriptionCheck_alltype mdS.data e.operation)
          (by decide),
        filterType_nil_of_ne _ _ _ (respIssues_alltype _) (by decide),
        filterType_self _ _ (parIssues_alltype _),
        filterType_nil_of_ne _ _ _ (bodIssues_alltype _) (by decide)]
    simp [List.length_map, length_paramMissing_none mdS.data e hh]
  · -- request-body examples
    rw [countType_decomp,
        filterType_nil_of_ne _ _ _ (securityCheck_alltype mdS.data e) (by decide),
        filterType_nil_of_ne _ _ _ (deprecatedCheck_alltype mdS.data e) (by decide),
        filterType_nil_of_ne _ _ _ (operationIdCheck_alltype mdS.data e.operation)
          (by decide),
        filterType_nil_of_ne _ _ _ (descriptionCheck_alltype mdS.data e.operation)
          (by decide),
        filterType_nil_of_ne _ _ _ (respIssues_alltype _) (by decide),
        filterType_nil_of_ne _ _ _ (parIssues_alltype _) (by decide),
        filterType_self _ _ (bodIssues_alltype _)]
    simp [List.length_map, length_bodyMissing_none mdS.data e hh]
  · -- operationId: whole-document search
    intro oid hoid
    rw [countType_decomp,
        filterType_nil_of_ne _ _ _ (securityCheck_alltype mdS.data e) (by decide),
        filterType_nil_of_ne _ _ _ (deprecatedCheck_alltype mdS.data e) (by decide),
        filterType_nil_of_ne _ _ _ (descriptionCheck_alltype mdS.data e.operation)
          (by decide),
        filterType_nil_of_ne _ _ _ (respIssues_alltype _) (by decide),
        filterType_nil_of_ne _ _ _ (parIssues_alltype _) (by decide),
        filterType_nil_of_ne _ _ _ (bodIssues_alltype _) (by decide)]
    cases hsi : strIn oid.data mdS.data with
    | true =>
      have hoc : operationIdCheck mdS.data e.operation = ([], false) := by
        unfold operationIdCheck
        rw [hoid]
        simp [checkOperationIdInMarkdown, hsi]
      rw [hoc]
      simp
    | false =>
      have hoc : operationIdCheck mdS.data e.operation =
          ([{ type := "missing_operation_id", severity := "low",
              message := "OperationId не найден в Markdown: " ++ oid }], true) := by
        unfold operationIdCheck
        rw [hoid]
        simp [checkOperationIdInMarkdown, hsi]
      rw [hoc]
      simp
  · -- description: whole-document search
    intro d hd htd
    rw [countType_decomp,
        filterType_nil_of_ne _ _ _ (securityCheck_alltype mdS.data e) (by decide),
        filterType_nil_of_ne _ _ _ (deprecatedCheck_alltype mdS.data e) (by decide),
        filterType_nil_of_ne _ _ _ (operationIdCheck_alltype mdS.data e.operation)
          (by decide),
        filterType_nil_of_ne _ _ _ (respIssues_alltype _) (by decide),
        filterType_nil_of_ne _ _ _ (parIssues_alltype _) (by decide),
        filterType_nil_of_ne _ _ _ (bodIssues_alltype _) (by decide)]
    cases hemp : (stripWs (d.data.take 50)).isEmpty with
    | true =>
      have hdc : descriptionCheck mdS.data e.operation = ([], false) := by
        unfold descriptionCheck
        rw [hd]
        simp [htd, checkDescriptionInMarkdown, hemp]
      rw [hdc]
      simp [hemp]
    | false =>
      cases hsi : strIn (lowerCL (stripWs (d.data.take 50))) (lowerCL mdS.data) with
      | true =>
        have hdc : descriptionCheck mdS.data e.operation = ([], false) := by
          unfold descriptionCheck
          rw [hd]
          simp [htd, checkDescriptionInMarkdown, hemp, hsi]
        rw [hdc]
        simp [hemp, hsi]
      | false =>
        have hdc : descriptionCheck mdS.data e.operation =
            ([{ type := "missing_description", severity := "medium",
                message := "Расширенное описание отсутствует в Markdown" }],
             true) := by
          unfold descriptionCheck
          rw [hd]
          simp [htd, checkDescriptionInMarkdown, hemp, hsi]
        rw [hdc]
        simp [hemp, hsi]

/-- The operation used by the C10 witness: security, deprecation, a response
example, a parameter example, a request-body example, an operationId and a
description, verified against text that never shows the endpoint heading but
does contain the operationId. -/
def c10Op : JValue := .obj [
  ("security", .arr [.obj [("apiKey", .arr [])]]),
  ("deprecated", .bool true),
  ("operationId", .str "getPets"),
  ("description", .str "List the pets"),
  ("responses", .obj [("200", .obj [("content", .obj [("application/json",
    .obj [("examples", .obj [("ok", .obj [("value", .obj [("a", .num 1)]),
      ("summary", .str "fine")])])])])])]),
  ("parameters", .arr [.obj [("name", .str "limit"), ("example", .num 5)]]),
  ("requestBody", .obj [("content", .obj [("application/json",
    .obj [("example", .num 7)])])])]

def c10E : Endpoint := mkEndpoint "/pets" "get" c10Op (.arr [])

def c10Md : String := "# API\nThe id getPets appears here but no heading."

/-- Witness for C10: heading absent, so the windowed security check reports
its single issue and every declared response example counts as missing, while
the whole-document operationId search still succeeds. -/
theorem verify_windowed_checks_witness :
    headingIdx c10E c10Md.data = none ∧
    ((DocumentationVerifier.verify_endpoint (fun _ => none) c10E c10Md).issues.filter
      (fun i => i.type == "missing_security")).length = 1 ∧
    ((DocumentationVerifier.verify_endpoint (fun _ => none) c10E c10Md).issues.filter
      (fun i => i.type == "missing_response_example")).length =
      totalResponseExamples c10E.operation ∧
    ((DocumentationVerifier.verify_endpoint (fun _ => none) c10E c10Md).issues.filter
      (fun i => i.type == "missing_operation_id")).length =
      (if strIn "getPets".data c10Md.data then 0 else 1) :=
  ⟨by decide,
   (verify_windowed_checks (fun _ => none) c10E c10Md (by decide)).1
     (.arr [.obj [("apiKey", .arr [])]]) rfl rfl,
   (verify_windowed_checks (fun _ => none) c10E c10Md (by decide)).2.2.1,
   (verify_windowed_checks (fun _ => none) c10E c10Md (by decide)).2.2.2.2.2.1
     "getPets" rfl⟩
